import Mathlib

/-!
# ByteBazaar: the cart, favorites and order store (`src/data-structures.js`)

A shallow embedding of `StorageManager`, of the catalog `ProductVariants` and of
the confirmation step of the variant modal (`VariantModal.addToCart` in
`src/variant-modal.js`).  The browser's `localStorage` is an
explicit state that every operation receives and returns; an exception thrown
by the JavaScript is an `Except.error`; the clock (`Date.now()`,
`new Date().toISOString()`) is an argument of the operations that read it.

Modelling conventions, all of them about the language and not about the
repository:

* A stored string is classified by what `JSON.parse` does with it (`Text`):
  the empty string, a non-empty string that `JSON.parse` rejects, or a string
  that `JSON.parse` accepts, carried as the value it parses to.
  `JSON.stringify` builds the last kind, so that `JSON.parse (JSON.stringify v)`
  is `v`: the records of the cart and of the favorites hold only values that
  JSON represents exactly (a property whose value is `undefined` is dropped
  when written and reads back as `undefined`).  The one value of the model
  that JSON does not represent is a function-valued `message` of an order's
  history: `saveOrders` writes, and `getOrders` reads, what JSON keeps of it
  (`Order.toJSON`).
* Numbers are integers (no `NaN`, no fractions, below `2^53` in magnitude).
* The keys `techub_cart`, `techub_current_user`, `techub_favorites_<id>` and
  `techub_orders_<id>` never coincide, so each family is a field of its own.
* A property read on an object literal (`messages[status]`,
  `ProductVariants[name]`, `basePrices[size]`) finds the own property, else the
  member inherited from `Object.prototype` under that name, else `undefined`.
* Of the modal, the state `addToCart` reads is modelled (the product, the two
  selections, the checked color radio); what it does to the page after the
  store call (refreshing the cart, the success notice, closing) is not.
-/

namespace ByteBazaar

/-! ## JavaScript values -/

/-- The primitive values a field of a product or a line item may hold. -/
inductive JsValue where
  | undefined
  | null
  | bool (b : Bool)
  | number (n : Int)
  | string (s : String)
  deriving DecidableEq, Repr

/-- The truthiness of a primitive: `undefined`, `null`, `false`, `0` and `""` are falsy. -/
def JsValue.truthy : JsValue → Bool
  | .undefined => false
  | .null => false
  | .bool b => b
  | .number n => n != 0
  | .string s => s != ""

/-- The expression `a || b`. -/
def JsValue.or (a b : JsValue) : JsValue :=
  if a.truthy then a else b

/-- The string a template literal makes of a primitive: `${v}`. -/
def JsValue.render : JsValue → String
  | .undefined => "undefined"
  | .null => "null"
  | .bool true => "true"
  | .bool false => "false"
  | .number n => toString n
  | .string s => s

/-- The exceptions the modelled code can throw. -/
inductive JsError where
  | syntaxError
  | typeError
  deriving DecidableEq, Repr

/-! ## Stored text and JSON -/

/-- A string held by `localStorage`, by what `JSON.parse` does with it. -/
inductive Text (α : Type) where
  | empty
  | invalid (raw : String)
  | json (value : α)
  deriving DecidableEq, Repr

/-- A string is falsy exactly when it is empty. -/
def Text.truthy {α : Type} : Text α → Bool
  | .empty => false
  | .invalid _ => true
  | .json _ => true

/-- The builtin `JSON.parse`: a `SyntaxError` on text that is not JSON. -/
def JSON.parse {α : Type} : Text α → Except JsError α
  | .empty => .error .syntaxError
  | .invalid _ => .error .syntaxError
  | .json v => .ok v

/-- The builtin `JSON.stringify`. -/
def JSON.stringify {α : Type} (v : α) : Text α :=
  .json v

/-! ## Arrays -/

/-- The builtin `Array.prototype.findIndex`; `none` stands for `-1`. -/
def findIndex {α : Type} (p : α → Bool) : List α → Option Nat
  | [] => none
  | x :: xs => if p x then some 0 else (findIndex p xs).map (· + 1)

/-- The builtin `Array.prototype.find`; `none` stands for `undefined`. -/
def find {α : Type} (p : α → Bool) : List α → Option α
  | [] => none
  | x :: xs => if p x then some x else find p xs

/-- The assignment `xs[i] = f (xs[i])` at an index that is in range. -/
def modifyAt {α : Type} (f : α → α) : List α → Nat → List α
  | [], _ => []
  | x :: xs, 0 => f x :: xs
  | x :: xs, i + 1 => x :: modifyAt f xs i

/-- The builtin call `xs.splice(index, 1)`, as the array it leaves: a negative
`index` counts from the end (and is clamped at `0`), an `index` past the end
is clamped at the length, and one element is removed from there if there is one. -/
def splice1 {α : Type} (xs : List α) (index : Int) : List α :=
  let len : Int := xs.length
  let start : Int := if index < 0 then max (len + index) 0 else min index len
  xs.eraseIdx start.toNat

/-! ## The data model -/

/-- What `addToCart` reads of its argument. -/
structure Product where
  id : JsValue
  name : JsValue
  price : JsValue
  image : JsValue
  color : JsValue
  size : JsValue
  deriving DecidableEq, Repr

/-- A line of the cart, as `addToCart` builds it. -/
structure CartItem where
  id : JsValue
  name : JsValue
  price : JsValue
  image : JsValue
  color : JsValue
  size : JsValue
  quantity : Int
  addedAt : String
  deriving DecidableEq, Repr

/-- An entry of the favorites list, as `toggleFavorite` builds it. -/
structure Favorite where
  id : JsValue
  name : JsValue
  price : JsValue
  image : JsValue
  addedAt : String
  deriving DecidableEq, Repr

/-- The `message` of a history entry.  In memory it is the value of
`messages[status] || 'Status updated'`: a string or, when `status` names a
member that the object literal inherits from `Object.prototype`, that member
(`inherited`: a function, or for `__proto__` the prototype object).  Read back
from storage it is a string, `undefined` (the property is absent: a function is
not written by `JSON.stringify`) or the empty object `emptyObject` (what is
written for the prototype object). -/
inductive Message where
  | text (s : String)
  | inherited (key : String)
  | undefined
  | emptyObject
  deriving DecidableEq, Repr

/-- What `JSON.stringify` followed by `JSON.parse` keeps of a message. -/
def Message.toJSON : Message → Message
  | .text s => .text s
  | .inherited key => if key = "__proto__" then .emptyObject else .undefined
  | .undefined => .undefined
  | .emptyObject => .emptyObject

/-- An entry of an order's `statusHistory`. -/
structure StatusEntry where
  status : String
  date : String
  message : Message
  deriving DecidableEq, Repr

/-- What `JSON.stringify` followed by `JSON.parse` keeps of a history entry. -/
def StatusEntry.toJSON (entry : StatusEntry) : StatusEntry :=
  { entry with message := entry.message.toJSON }

/-- The address `checkout.js` attaches to an order (`getFormData`). -/
structure Address where
  name : String
  mobile : String
  street : String
  barangay : String
  province : String
  municipality : String
  postalCode : String
  isDefault : Bool
  deriving DecidableEq, Repr

/-- An order, as `createOrder` builds it; `shippingAddress` is attached later by the checkout. -/
structure Order where
  id : String
  items : List CartItem
  total : JsValue
  status : String
  orderDate : String
  statusHistory : List StatusEntry
  shippingAddress : Option Address
  deriving DecidableEq, Repr

/-- What `JSON.stringify` followed by `JSON.parse` keeps of an order: every
field but the messages of the history, which are kept as `Message.toJSON` says. -/
def Order.toJSON (order : Order) : Order :=
  { order with statusHistory := order.statusHistory.map StatusEntry.toJSON }

/-- The record stored under `techub_current_user`, of which only `id` is read. -/
structure User where
  id : JsValue
  deriving DecidableEq, Repr

/-- The browser's `localStorage`, one field per key family; `none` is a key
that is not set (`getItem` returns `null`).  The per-user families are indexed
by the rendered user id, the suffix of the key. -/
structure LocalStorage where
  cart : Option (Text (List CartItem))
  currentUser : Option (Text User)
  favorites : String → Option (Text (List Favorite))
  orders : String → Option (Text (List Order))

/-- The result of a call: what it returned or threw, and the storage it left. -/
abbrev Outcome (α : Type) := Except JsError α × LocalStorage

/-! ## Cart management -/

/-- Embeds `StorageManager.getCart`. -/
def getCart (ls : LocalStorage) : Except JsError (List CartItem) :=
  match ls.cart with
  | none => .ok []
  | some cart => if cart.truthy then JSON.parse cart else .ok []

/-- Embeds `StorageManager.saveCart`. -/
def saveCart (ls : LocalStorage) (cart : List CartItem) : LocalStorage :=
  { ls with cart := some (JSON.stringify cart) }

/-- The predicate `addToCart` passes to `findIndex`. -/
def sameLine (product : Product) (item : CartItem) : Bool :=
  item.id == product.id && item.color == product.color && item.size == product.size

/-- Embeds `StorageManager.addToCart`; `now` is `new Date().toISOString()`. -/
def addToCart (ls : LocalStorage) (product : Product) (now : String) : Outcome (List CartItem) :=
  match getCart ls with
  | .error e => (.error e, ls)
  | .ok cart =>
    let cart :=
      match findIndex (sameLine product) cart with
      | some existingIndex =>
        modifyAt (fun item => { item with quantity := item.quantity + 1 }) cart existingIndex
      | none =>
        cart ++ [{ id := product.id, name := product.name, price := product.price,
                   image := product.image, color := product.color,
                   size := product.size.or .null, quantity := 1, addedAt := now }]
    (.ok cart, saveCart ls cart)

/-- Embeds `StorageManager.removeFromCart`. -/
def removeFromCart (ls : LocalStorage) (index : Int) : Outcome (List CartItem) :=
  match getCart ls with
  | .error e => (.error e, ls)
  | .ok cart =>
    let cart := splice1 cart index
    (.ok cart, saveCart ls cart)

/-- Embeds `StorageManager.updateCartQuantity`: `cart[index]` is `undefined` when
`index` is not an index of the array, and assigning to its `quantity` throws. -/
def updateCartQuantity (ls : LocalStorage) (index quantity : Int) : Outcome (List CartItem) :=
  match getCart ls with
  | .error e => (.error e, ls)
  | .ok cart =>
    if quantity ≤ 0 then removeFromCart ls index
    else if 0 ≤ index ∧ index < cart.length then
      let cart := modifyAt (fun item => { item with quantity := quantity }) cart index.toNat
      (.ok cart, saveCart ls cart)
    else (.error .typeError, ls)

/-- Embeds `StorageManager.clearCart`. -/
def clearCart (ls : LocalStorage) : LocalStorage :=
  { ls with cart := none }

/-! ## Favorites management (per user) -/

/-- Embeds `StorageManager.getFavorites`. -/
def getFavorites (ls : LocalStorage) : Except JsError (List Favorite) :=
  match ls.currentUser with
  | none => .ok []
  | some currentUser =>
    if !currentUser.truthy then .ok []
    else
      match JSON.parse currentUser with
      | .error e => .error e
      | .ok user =>
        match ls.favorites user.id.render with
        | none => .ok []
        | some favorites => if favorites.truthy then JSON.parse favorites else .ok []

/-- Embeds `StorageManager.saveFavorites`. -/
def saveFavorites (ls : LocalStorage) (favorites : List Favorite) : Outcome Unit :=
  match ls.currentUser with
  | none => (.ok (), ls)
  | some currentUser =>
    if !currentUser.truthy then (.ok (), ls)
    else
      match JSON.parse currentUser with
      | .error e => (.error e, ls)
      | .ok user =>
        (.ok (), { ls with favorites := fun key =>
          if key = user.id.render then some (JSON.stringify favorites) else ls.favorites key })

/-- Embeds `StorageManager.toggleFavorite`; `now` is `new Date().toISOString()`. -/
def toggleFavorite (ls : LocalStorage) (product : Product) (now : String) :
    Outcome (List Favorite) :=
  match getFavorites ls with
  | .error e => (.error e, ls)
  | .ok favorites =>
    let favorites :=
      match findIndex (fun item => item.id == product.id) favorites with
      | some existingIndex => favorites.eraseIdx existingIndex
      | none =>
        favorites ++ [{ id := product.id, name := product.name, price := product.price,
                        image := product.image, addedAt := now }]
    match saveFavorites ls favorites with
    | (.error e, ls) => (.error e, ls)
    | (.ok (), ls) => (.ok favorites, ls)

/-- Embeds `StorageManager.isFavorite`. -/
def isFavorite (ls : LocalStorage) (productId : JsValue) : Except JsError Bool :=
  match getFavorites ls with
  | .error e => .error e
  | .ok favorites => .ok (favorites.any (fun item => item.id == productId))

/-! ## Orders management (per user) -/

/-- Embeds `StorageManager.getOrders`.  What `JSON.parse` gives back is a JSON
value: no message of the list read is a function. -/
def getOrders (ls : LocalStorage) : Except JsError (List Order) :=
  match ls.currentUser with
  | none => .ok []
  | some currentUser =>
    if !currentUser.truthy then .ok []
    else
      match JSON.parse currentUser with
      | .error e => .error e
      | .ok user =>
        match ls.orders user.id.render with
        | none => .ok []
        | some orders =>
          if orders.truthy then (JSON.parse orders).map (List.map Order.toJSON) else .ok []

/-- Embeds `StorageManager.saveOrders`.  `JSON.stringify` writes of each order
what JSON represents: a message that is a function is left out. -/
def saveOrders (ls : LocalStorage) (orders : List Order) : Outcome Unit :=
  match ls.currentUser with
  | none => (.ok (), ls)
  | some currentUser =>
    if !currentUser.truthy then (.ok (), ls)
    else
      match JSON.parse currentUser with
      | .error e => (.error e, ls)
      | .ok user =>
        let text := JSON.stringify (orders.map Order.toJSON)
        (.ok (), { ls with orders := fun key =>
          if key = user.id.render then some text else ls.orders key })

/-- The object literal `messages` of `getStatusMessage`: its own properties. -/
def messages : List (String × String) :=
  [("pending", "Order placed successfully"),
   ("packed", "Order has been packed"),
   ("shipped", "Order is on the way"),
   ("delivered", "Order delivered successfully"),
   ("cancelled", "Order has been cancelled")]

/-- The names an object literal inherits from `Object.prototype`. -/
def objectPrototypeMembers : List String :=
  ["constructor", "__proto__", "hasOwnProperty", "isPrototypeOf", "propertyIsEnumerable",
   "toLocaleString", "toString", "valueOf", "__defineGetter__", "__defineSetter__",
   "__lookupGetter__", "__lookupSetter__"]

/-- The property read `messages[status]`: an own property, else an inherited
member, else `undefined` (`none`). -/
def messagesAt (status : String) : Option Message :=
  match messages.lookup status with
  | some message => some (.text message)
  | none => if status ∈ objectPrototypeMembers then some (.inherited status) else none

/-- The truthiness of what `messages[status]` yields: functions and objects are truthy. -/
def Message.truthy : Message → Bool
  | .text s => s != ""
  | .inherited _ => true
  | .undefined => false
  | .emptyObject => true

/-- Embeds `StorageManager.getStatusMessage`. -/
def getStatusMessage (status : String) : Message :=
  match messagesAt status with
  | some message => if message.truthy then message else .text "Status updated"
  | none => .text "Status updated"

/-- Embeds `StorageManager.createOrder`; `nowMs` is `Date.now()`, `orderDate` and
`historyDate` are the two readings of `new Date().toISOString()`. -/
def createOrder (ls : LocalStorage) (cartItems : List CartItem) (total : JsValue)
    (nowMs : Nat) (orderDate historyDate : String) : Outcome Order :=
  match getOrders ls with
  | .error e => (.error e, ls)
  | .ok orders =>
    let newOrder : Order :=
      { id := "ORD-" ++ toString nowMs,
        items := cartItems,
        total := total,
        status := "pending",
        orderDate := orderDate,
        statusHistory :=
          [{ status := "pending", date := historyDate, message := .text "Order placed successfully" }],
        shippingAddress := none }
    let orders := newOrder :: orders
    match saveOrders ls orders with
    | (.error e, ls) => (.error e, ls)
    | (.ok (), ls) => (.ok newOrder, clearCart ls)

/-- Embeds `StorageManager.updateOrderStatus`; `now` is `new Date().toISOString()`. -/
def updateOrderStatus (ls : LocalStorage) (orderId newStatus : String) (now : String) :
    Outcome (List Order) :=
  match getOrders ls with
  | .error e => (.error e, ls)
  | .ok orders =>
    match findIndex (fun order => order.id == orderId) orders with
    | some orderIndex =>
      let orders := modifyAt (fun order =>
        { order with
          status := newStatus,
          statusHistory := order.statusHistory ++
            [{ status := newStatus, date := now, message := getStatusMessage newStatus }] })
        orders orderIndex
      match saveOrders ls orders with
      | (.error e, ls) => (.error e, ls)
      | (.ok (), ls) => (.ok orders, ls)
    | none => (.ok orders, ls)

/-- Embeds `StorageManager.cancelOrder`; the result `none` is the `null` it returns
when the order is not cancelled. -/
def cancelOrder (ls : LocalStorage) (orderId : String) (now : String) :
    Outcome (Option (List Order)) :=
  match getOrders ls with
  | .error e => (.error e, ls)
  | .ok orders =>
    match find (fun order => order.id == orderId) orders with
    | some order =>
      if order.status == "pending" || order.status == "packed" then
        match updateOrderStatus ls orderId "cancelled" now with
        | (.error e, ls) => (.error e, ls)
        | (.ok orders, ls) => (.ok (some orders), ls)
      else (.ok none, ls)
    | none => (.ok none, ls)

/-! ## Product variants configuration -/

/-- A color of a catalog entry. -/
structure Color where
  name : String
  hex : String
  image : String
  deriving DecidableEq, Repr

/-- An entry of `ProductVariants`: `sizes` is `none` where the source has
`sizes: null`, `basePrices` is `none` where the entry has no such property. -/
structure VariantEntry where
  colors : List Color
  sizes : Option (List String)
  basePrices : Option (List (String × Int))
  deriving DecidableEq, Repr

/-- The object literal `ProductVariants`: its own properties, in source order. -/
def ProductVariants : List (String × VariantEntry) :=
  [
  ("iPhone 14 Pro Max",
    { colors := [
        { name := "Midnight Black", hex := "#1a1a1a", image := "Products/ip14midnightblack.png" },
        { name := "Silver", hex := "#c0c0c0", image := "Products/ip14 silver.png" },
        { name := "Deep Purple", hex := "#3a243b", image := "Products/ip14deeppurple.png" },
        { name := "Gold", hex := "#d4c9b1", image := "Products/ip14gold.png" }],
      sizes := some ["128GB", "256GB", "512GB"],
      basePrices := some [("128GB", 57000), ("256GB", 63000), ("512GB", 69000)] }),
   ("Samsung Galaxy S23 Ultra",
    { colors := [
        { name := "Phantom Black", hex := "#0F0F0F", image := "Products/SamsungGalaxyS23Ultra Phantom Black.png" },
        { name := "Green", hex := "#27423a", image := "Products/SamsungGalaxyS23Ultra green.png" },
        { name := "Lavander", hex := "#E6E6FA", image := "Products/SamsungGalaxyS23Ultra Lavander.png" },
        { name := "Cream", hex := "#FFFDD0", image := "Products/SamsungGalaxyS23Ultra Creame.png" }],
      sizes := some ["256GB", "512GB", "1TB"],
      basePrices := some [("256GB", 50000), ("512GB", 76000), ("1TB", 114000)] }),
   ("Google Pixel 10 Pro",
    { colors := [
        { name := "Obsidian", hex := "#0a0e27", image := "Products/Google Pixel 10 Pro Obsidian.png" },
        { name := "Porcelain", hex := "#f5f5f5", image := "Products/Google Pixel 10 Pro Porcelain.png" },
        { name := "Moonstone", hex := "#5481a8", image := "Products/Google Pixel 10 Pro Moonstone.png" },
        { name := "Jade", hex := "#c9dbb8", image := "Products/Google Pixel 10 Pro Jade.png" }],
      sizes := some ["128GB", "256GB", "512GB"],
      basePrices := some [("128GB", 44000), ("256GB", 50000), ("512GB", 57000)] }),
   ("iPhone 17 Promax",
    { colors := [
        { name := "Cosmic Orange", hex := "#F77314", image := "Products/ip17 promax Cosmicorange.png" },
        { name := "Deep Blue", hex := "#2B3145", image := "Products/ip17 promax Deepblue.png" },
        { name := "Silver", hex := "#F5F5F5", image := "Products/ip17 promax silver.png" }],
      sizes := some ["256GB", "512GB", "1TB", "2TB"],
      basePrices := some [("256GB", 86990), ("512GB", 101990), ("1TB", 116990), ("2TB", 146990)] }),
   ("Galaxy Z Flip7",
    { colors := [
        { name := "Blue Shadow", hex := "#97A7E4", image := "Products/Galaxy Z Flip7 Blueshadow.png" },
        { name := "Jet Black", hex := "#232526", image := "Products/Galaxy Z Flip7 Jetblack.png" },
        { name := "Coral Red", hex := "#F9B492", image := "Products/Galaxy Z Flip7 Coral Red.png" },
        { name := "Mint", hex := "#A0C9AC", image := "Products/Galaxy Z Flip7 Mint.png" }],
      sizes := some ["256GB", "512GB"],
      basePrices := some [("256GB", 60000), ("512GB", 67000)] }),
   ("Pixel 10 Pro Fold",
    { colors := [
        { name := "Moonstone", hex := "#a4b5d6", image := "Products/Pixel 10 Pro Fold Moonstone.png" },
        { name := "Jade", hex := "#cfddc3", image := "Products/Pixel 10 Pro Fold Jade.png" }],
      sizes := some ["512GB", "1TB"],
      basePrices := some [("512GB", 95000), ("1TB", 108000)] }),
   ("iPhone 16",
    { colors := [
        { name := "Ultramarine", hex := "#758dd9", image := "Products/iPhone16 Ultramarine.png" },
        { name := "Black", hex := "#302e47", image := "Products/iPhone16 Black.png" },
        { name := "White", hex := "#f0f2f2", image := "Products/iPhone16 White.png" },
        { name := "Pink", hex := "#e698c7", image := "Products/iPhone16 Pink.png" },
        { name := "Teal", hex := "#4bbdb7", image := "Products/iPhone16 Teal.png" }],
      sizes := some ["128GB", "256GB"],
      basePrices := some [("128GB", 57990), ("256GB", 64990)] }),
   ("Galaxy S25 Ultra",
    { colors := [
        { name := "Titanium Silverblue", hex := "#b6c9ea", image := "Products/Galaxy S25 Ultra Titanium Silverblue.png" },
        { name := "Titanium Gray", hex := "#dbd6d2", image := "Products/Galaxy S25 Ultra Titanium Gray.png" },
        { name := "Titanium Black", hex := "#38383c", image := "Products/Galaxy S25 Ultra Titanium Black.png" },
        { name := "Titanium Whitesilver", hex := "#ececee", image := "Products/Galaxy S25 Ultra Titanium Whitesilver.png" }],
      sizes := some ["256GB", "512GB"],
      basePrices := some [("256GB", 85000), ("512GB", 94000)] }),
   ("ROG Zephyrus G14",
    { colors := [
        { name := "Eclipse Gray ", hex := "#737272", image := "Products/ROG Zephyrus G14 Eclipse Gray.png" },
        { name := "Moonlight White", hex := "#ececec", image := "Products/ROG Zephyrus G14 Moonlight White.png" }],
      sizes := some ["32GB RAM", "64GB RAM"],
      basePrices := some [("32GB RAM", 159000), ("64GB RAM", 179000)] }),
   ("MacBook Pro 16",
    { colors := [
        { name := "Space Gray", hex := "#3c3c3c", image := "Products/MacBook Pro 16 Space Gray.png" },
        { name := "Silver", hex := "#f0f0f0", image := "Products/MacBook Pro 16 Silver.png" }],
      sizes := some ["512GB SSD", "1TB SSD", "2TB SSD"],
      basePrices := some [("512GB SSD", 99990), ("1TB SSD", 112990), ("2TB SSD", 138990)] }),
   ("Galaxy Buds3 Pro",
    { colors := [
        { name := "White", hex := "#f2f3f5", image := "Products/Galaxy Buds3 Pro White.png" },
        { name := "Silver", hex := "#7d7e83", image := "Products/Galaxy Buds3 Pro Silver.png" }],
      sizes := none,
      basePrices := none }),
   ("AirPods Max",
    { colors := [
        { name := "Blue", hex := "#58788c", image := "Products/AirPods Max Blue.png" },
        { name := "Purple", hex := "#796c8a", image := "Products/AirPods Max Purple.png" },
        { name := "Midnight", hex := "#213348", image := "Products/AirPods Max Midnight.png" },
        { name := "Starlight", hex := "#eae1d7", image := "Products/AirPods Max Starlight.png" },
        { name := "Orange", hex := "#f5bda3", image := "Products/AirPods Max Orange.png" }],
      sizes := none,
      basePrices := none }),
   ("Apple Watch SE 3",
    { colors := [
        { name := "Starlight", hex := "#c3c18c", image := "Products/Apple Watch SE 3 Starlight.png" },
        { name := "Midnight", hex := "#4b5762", image := "Products/Apple Watch SE 3 Midnight.png" }],
      sizes := none,
      basePrices := none }),
   ("Galaxy Tab S11 Ultra",
    { colors := [
        { name := "Gray", hex := "#5d6b88", image := "Products/Galaxy Tab S11 Ultra.png" }],
      sizes := some ["256GB", "512GB"],
      basePrices := some [("256GB", 86000), ("512GB", 92000)] }),
   ("iPad Air 11",
    { colors := [
        { name := "Silver", hex := "#d7d7d7", image := "Products/ipad silver.png" },
        { name := "Yellow", hex := "#dec859", image := "Products/ipad yellow.png" },
        { name := "Blue", hex := "#7391b4", image := "Products/ipad blue.png" },
        { name := "Pink", hex := "#fd8698", image := "Products/ipad pink.png" }],
      sizes := some ["128GB", "256GB", "512GB"],
      basePrices := some [("128GB", 24990), ("256GB", 31990), ("512GB", 45990)] }),
   ("Galaxy SmartTag2 ",
    { colors := [
        { name := "Black", hex := "#000000", image := "Products/Galaxy SmartTag2 Black.png" },
        { name := "White", hex := "#ffffff", image := "Products/Galaxy SmartTag2 White.png" }],
      sizes := none,
      basePrices := none }),
   ("Galaxy Fit3",
    { colors := [
        { name := "Silver", hex := "#dfdfdf", image := "Products/Galaxy fit3 Silver.png" },
        { name := "Gray", hex := "#313235", image := "Products/Galaxy fit3 Gray.png" },
        { name := "Pink Gold", hex := "#f2d9d0", image := "Products/Galaxy fit3 pinkgold.png" }],
      sizes := none,
      basePrices := none }),
   ("Magic Mouse - White Multi-Touch Surface",
    { colors := [
        { name := "Black", hex := "#000000", image := "Products/Magic Mouse - White Multi-Touch Surface Black.png" },
        { name := "White", hex := "#c0c0c0", image := "Products/Magic Mouse - White Multi-Touch Surface White.png" }],
      sizes := none,
      basePrices := none })]

/-- What a property read on `ProductVariants` yields when it is not
`undefined`: an entry of the catalog, or a member that the object literal
inherits from `Object.prototype`, which has no `colors`, `sizes` or `basePrices`. -/
inductive Variants where
  | entry (e : VariantEntry)
  | member (key : String)
  deriving DecidableEq, Repr

/-- The property read `ProductVariants[name]`; `none` is `undefined`. -/
def productVariantsAt (name : String) : Option Variants :=
  match ProductVariants.lookup name with
  | some e => some (.entry e)
  | none => if name ∈ objectPrototypeMembers then some (.member name) else none

/-- The property read `variants.sizes`; `none` is `null` or `undefined`. -/
def Variants.sizes : Variants → Option (List String)
  | .entry e => e.sizes
  | .member _ => none

/-- The property read `variants.colors`; `none` is `undefined`. -/
def Variants.colors : Variants → Option (List Color)
  | .entry e => some e.colors
  | .member _ => none

/-- The property read `variants.basePrices`; `none` is `undefined`. -/
def Variants.basePrices : Variants → Option (List (String × Int))
  | .entry e => e.basePrices
  | .member _ => none

/-! ## The variant modal (`src/variant-modal.js`) -/

/-- The characters the regular expression `\s` matches. -/
def isWhitespace (c : Char) : Bool :=
  c.toNat ∈ [9, 10, 11, 12, 13, 32, 160, 5760, 8232, 8233, 8239, 8287, 12288, 65279] ||
    (8192 ≤ c.toNat && c.toNat ≤ 8202)

/-- The characters of `s.replace(/\s+/g, '-')`; `inRun` tells that the
previous character was whitespace, already replaced. -/
def dashed : Bool → List Char → List Char
  | _, [] => []
  | inRun, c :: cs =>
    if isWhitespace c then
      if inRun then dashed true cs else '-' :: dashed true cs
    else c :: dashed false cs

/-- The call `s.replace(/\s+/g, '-')`. -/
def replaceWhitespace (s : String) : String :=
  String.mk (dashed false s.data)

/-- The product `open` was called with, `this.currentProduct`. -/
structure BaseProduct where
  id : JsValue
  name : JsValue
  price : JsValue
  image : JsValue
  deriving DecidableEq, Repr

/-- The state of the modal that `addToCart` reads: `selectedColor` and
`selectedSize` are `null` (`none`) or the value of the radio chosen last, and
`checkedColor` is the `data-index` of the color radio that is checked, if one is. -/
structure VariantModal where
  currentProduct : BaseProduct
  selectedColor : Option String
  selectedSize : Option String
  checkedColor : Option Nat
  deriving DecidableEq, Repr

/-- The truthiness of `this.selectedColor` or `this.selectedSize`: `null` and
the empty string are falsy. -/
def selected : Option String → Bool
  | none => false
  | some value => value != ""

/-- The value of `finalPrice`: a primitive, or the member that `basePrices`
inherits from `Object.prototype` under the name of the selected size. -/
inductive FinalPrice where
  | value (price : JsValue)
  | member (key : String)
  deriving DecidableEq, Repr

/-- The price `addToCart` determines: `variants.basePrices[this.selectedSize] ||
this.currentProduct.price` when a size is selected and the entry has
`basePrices`, else the price of the product. -/
def VariantModal.finalPrice (modal : VariantModal) (variants : Option Variants) : FinalPrice :=
  match modal.selectedSize, variants.bind Variants.basePrices with
  | some size, some basePrices =>
    if size = "" then .value modal.currentProduct.price
    else
      match basePrices.lookup size with
      | some price =>
        if price != 0 then .value (.number price) else .value modal.currentProduct.price
      | none =>
        if size ∈ objectPrototypeMembers then .member size
        else .value modal.currentProduct.price
  | _, _ => .value modal.currentProduct.price

/-- The image `addToCart` determines: that of the color at the index of the
checked radio, or else of the first color named as the selected one, when the
entry has it; the image of the product otherwise. -/
def VariantModal.selectedImage (modal : VariantModal) (variants : Option Variants)
    (selectedColor : String) : JsValue :=
  match modal.checkedColor, variants.bind Variants.colors with
  | some idx, some colors =>
    let colorObj :=
      match colors[idx]? with
      | some color => some color
      | none => find (fun c => c.name != "" && c.name == selectedColor) colors
    match colorObj with
    | some color =>
      if color.image != "" then .string color.image else modal.currentProduct.image
    | none => modal.currentProduct.image
  | _, _ => modal.currentProduct.image

/-- How a call of `VariantModal.addToCart` ends: `blocked` is `showError(message)`
followed by `return`, before anything is handed to the store; `added` is the
call `StorageManager.addToCart(productWithVariants)` with what it returned or
threw and the storage it left; `addedMember` is the same call when the price
handed over is not a primitive but the member `key` of `Object.prototype`
(the model does not follow the store there). -/
inductive AddResult where
  | blocked (message : String)
  | added (productWithVariants : Product) (after : Outcome (List CartItem))
  | addedMember (key : String)

/-- Embeds `VariantModal.addToCart`; `now` is the `new Date().toISOString()`
read by `StorageManager.addToCart`. -/
def VariantModal.addToCart (modal : VariantModal) (ls : LocalStorage) (now : String) :
    AddResult :=
  match modal.selectedColor with
  | none => .blocked "Please select a color"
  | some selectedColor =>
    if selectedColor = "" then .blocked "Please select a color"
    else
      let variants := productVariantsAt modal.currentProduct.name.render
      if (variants.bind Variants.sizes).isSome && !selected modal.selectedSize then
        .blocked "Please select a size"
      else
        match modal.finalPrice variants with
        | .member key => .addedMember key
        | .value finalPrice =>
          let productWithVariants : Product :=
            { id := .string (modal.currentProduct.id.render ++ "-" ++
                replaceWhitespace selectedColor ++ "-" ++
                (match modal.selectedSize with
                 | some size => if size = "" then "default" else replaceWhitespace size
                 | none => "default")),
              name := modal.currentProduct.name,
              price := finalPrice,
              image := modal.selectedImage variants selectedColor,
              color := .string selectedColor,
              size := match modal.selectedSize with
                | some size => .string size
                | none => .null }
          .added productWithVariants (ByteBazaar.addToCart ls productWithVariants now)

/-- Whether the call reached `StorageManager.addToCart`. -/
def AddResult.called : AddResult → Bool
  | .blocked _ => false
  | .added _ _ => true
  | .addedMember _ => true

/-- The storage after the call, given the storage before it; `none` where the
model does not follow the store. -/
def AddResult.storage (before : LocalStorage) : AddResult → Option LocalStorage
  | .blocked _ => some before
  | .added _ after => some after.2
  | .addedMember _ => none

/-! ## Properties of the data model -/

/-- The identity of a line: the `(id, color, size)` that `addToCart` compares. -/
def CartItem.identity (item : CartItem) : JsValue × JsValue × JsValue :=
  (item.id, item.color, item.size)

/-- No two lines of the cart share an identity. -/
def uniqueIdentities (cart : List CartItem) : Prop :=
  (cart.map CartItem.identity).Nodup

instance (cart : List CartItem) : Decidable (uniqueIdentities cart) :=
  inferInstanceAs (Decidable (cart.map CartItem.identity).Nodup)

/-- The order ids of a history are pairwise distinct. -/
def uniqueOrderIds (orders : List Order) : Prop :=
  (orders.map Order.id).Nodup

instance (orders : List Order) : Decidable (uniqueOrderIds orders) :=
  inferInstanceAs (Decidable (orders.map Order.id).Nodup)

/-- The favorites list has at most one entry per product id. -/
def uniqueFavoriteIds (favorites : List Favorite) : Prop :=
  (favorites.map Favorite.id).Nodup

instance (favorites : List Favorite) : Decidable (uniqueFavoriteIds favorites) :=
  inferInstanceAs (Decidable (favorites.map Favorite.id).Nodup)

/-- The test `variants && variants.sizes` of the modal: the product has a
catalog entry and the entry has sizes. -/
def VariantModal.hasSizes (modal : VariantModal) : Bool :=
  ((productVariantsAt modal.currentProduct.name.render).bind Variants.sizes).isSome

/-- A check on a catalog entry: an entry without sizes has no `basePrices`, and
an entry with sizes has `basePrices` that hold a non-zero price for every size,
none of the sizes being the empty string. -/
def VariantEntry.priced (e : VariantEntry) : Bool :=
  match e.sizes, e.basePrices with
  | none, none => true
  | none, some _ => false
  | some _, none => false
  | some sizes, some prices =>
    sizes.all (fun size =>
      size != "" &&
        match prices.lookup size with
        | some price => price != 0
        | none => false)

/-- A session is active: `techub_current_user` holds the JSON of `user`. -/
def activeSession (ls : LocalStorage) (user : User) : Prop :=
  ls.currentUser = some (.json user)

/-! ## Sample states -/

/-- A storage with nothing set. -/
def emptyStorage : LocalStorage :=
  { cart := none, currentUser := none, favorites := fun _ => none, orders := fun _ => none }

/-- A storage whose only entry is the session of the user with id `"u1"`. -/
def signedIn : LocalStorage :=
  { emptyStorage with currentUser := some (.json { id := .string "u1" }) }

/-- A product chosen with a color and without a `size` property. -/
def phoneNoSize : Product :=
  { id := .string "p1-Black-default", name := .string "Phone", price := .number 57000,
    image := .string "Products/phone.png", color := .string "Black", size := .undefined }

/-- A line of the cart with size `null`. -/
def phoneLine : CartItem :=
  { id := .string "p1-Black-default", name := .string "Phone", price := .number 57000,
    image := .string "Products/phone.png", color := .string "Black", size := .null,
    quantity := 1, addedAt := "2024-01-01T00:00:00.000Z" }

/-- A second line, of another color. -/
def phoneLineSilver : CartItem :=
  { phoneLine with id := .string "p1-Silver-default", color := .string "Silver" }

/-- An order with the given id and status, one history entry and no address. -/
def sampleOrder (id status : String) : Order :=
  { id := id, items := [phoneLine], total := .number 57000, status := status,
    orderDate := "2024-01-01T00:00:00.000Z",
    statusHistory := [{ status := "pending", date := "2024-01-01T00:00:00.000Z",
                        message := .text "Order placed successfully" }],
    shippingAddress := none }

/-- The storage `signedIn` with the given order history persisted for the user. -/
def withOrders (orders : List Order) : LocalStorage :=
  { signedIn with orders := fun key => if key = "u1" then some (.json orders) else none }

/-- The storage `emptyStorage` with the given cart persisted. -/
def withCart (cart : List CartItem) : LocalStorage :=
  { emptyStorage with cart := some (.json cart) }


/-- The product `iPhone 14 Pro Max` of the storefront, an entry with sizes. -/
def iphone : BaseProduct :=
  { id := .number 1, name := .string "iPhone 14 Pro Max", price := .number 57000,
    image := .string "Products/ip14.png" }

/-- The product `AirPods Max`, an entry without sizes. -/
def airpods : BaseProduct :=
  { id := .number 12, name := .string "AirPods Max", price := .number 32990,
    image := .string "Products/airpods.png" }

/-- The storage `signedIn` with the given favorites persisted for the user. -/
def withFavorites (favorites : List Favorite) : LocalStorage :=
  { signedIn with favorites := fun key => if key = "u1" then some (.json favorites) else none }

/-- A favorite entry with the given id. -/
def sampleFavorite (id : Int) : Favorite :=
  { id := .number id, name := .string "Phone", price := .number 57000,
    image := .string "Products/phone.png", addedAt := "2024-01-01T00:00:00.000Z" }

/-- A product with the given id, as the favorites button passes it. -/
def sampleProduct (id : Int) : Product :=
  { id := .number id, name := .string "Phone", price := .number 57000,
    image := .string "Products/phone.png", color := .undefined, size := .undefined }

/-- The catalog entry of `iPhone 14 Pro Max`. -/
def iphoneEntry : VariantEntry :=
  { colors := [
      { name := "Midnight Black", hex := "#1a1a1a", image := "Products/ip14midnightblack.png" },
      { name := "Silver", hex := "#c0c0c0", image := "Products/ip14 silver.png" },
      { name := "Deep Purple", hex := "#3a243b", image := "Products/ip14deeppurple.png" },
      { name := "Gold", hex := "#d4c9b1", image := "Products/ip14gold.png" }],
    sizes := some ["128GB", "256GB", "512GB"],
    basePrices := some [("128GB", 57000), ("256GB", 63000), ("512GB", 69000)] }

/-- The modal just opened on a product: nothing is selected. -/
def openedOn (product : BaseProduct) : VariantModal :=
  { currentProduct := product, selectedColor := none, selectedSize := none,
    checkedColor := none }

/-! ## Lemmas on the array builtins -/

theorem findIndex_eq_none_iff {α : Type} (p : α → Bool) (xs : List α) :
    findIndex p xs = none ↔ ∀ x ∈ xs, p x = false := by
  induction xs with
  | nil => simp [findIndex]
  | cons x xs ih =>
    by_cases hx : p x = true
    · simp [findIndex, hx]
    · simp [findIndex, hx, ih]

theorem findIndex_lt_length {α : Type} (p : α → Bool) :
    ∀ (xs : List α) (i : Nat), findIndex p xs = some i → i < xs.length := by
  intro xs
  induction xs with
  | nil => intro i h; simp [findIndex] at h
  | cons x xs ih =>
    intro i h
    by_cases hx : p x = true
    · simp [findIndex, hx] at h
      subst h
      simp
    · simp [findIndex, hx] at h
      obtain ⟨j, hj, rfl⟩ := h
      have := ih j hj
      simp
      omega

theorem findIndex_append_singleton {α : Type} (p : α → Bool) (xs : List α) (y : α)
    (hxs : findIndex p xs = none) (hy : p y = true) :
    findIndex p (xs ++ [y]) = some xs.length := by
  induction xs with
  | nil => simp [findIndex, hy]
  | cons x xs ih =>
    by_cases hx : p x = true
    · simp [findIndex, hx] at hxs
    · simp [findIndex, hx] at hxs
      simp [findIndex, hx, ih hxs]

theorem find_eq_getElem?_of_findIndex {α : Type} (p : α → Bool) :
    ∀ (xs : List α) (i : Nat), findIndex p xs = some i → find p xs = xs[i]? := by
  intro xs
  induction xs with
  | nil => intro i h; simp [findIndex] at h
  | cons x xs ih =>
    intro i h
    by_cases hx : p x = true
    · simp [findIndex, hx] at h
      subst h
      simp [find, hx]
    · simp [findIndex, hx] at h
      obtain ⟨j, hj, rfl⟩ := h
      simp [find, hx, ih j hj]

theorem find_eq_none_of_findIndex {α : Type} (p : α → Bool) (xs : List α)
    (h : findIndex p xs = none) : find p xs = none := by
  induction xs with
  | nil => rfl
  | cons x xs ih =>
    by_cases hx : p x = true
    · simp [findIndex, hx] at h
    · simp [findIndex, hx] at h
      simp [find, hx, ih h]

theorem find_some_holds {α : Type} (p : α → Bool) (xs : List α) (x : α)
    (h : find p xs = some x) : p x = true := by
  induction xs with
  | nil => simp [find] at h
  | cons y ys ih =>
    by_cases hy : p y = true
    · simp [find, hy] at h
      subst h
      exact hy
    · simp [find, hy] at h
      exact ih h

theorem length_modifyAt {α : Type} (f : α → α) :
    ∀ (xs : List α) (i : Nat), (modifyAt f xs i).length = xs.length := by
  intro xs
  induction xs with
  | nil => intro i; rfl
  | cons x xs ih =>
    intro i
    cases i with
    | zero => rfl
    | succ i => simp [modifyAt, ih i]

theorem getElem?_modifyAt {α : Type} (f : α → α) :
    ∀ (xs : List α) (i j : Nat),
      (modifyAt f xs i)[j]? = if j = i then xs[j]?.map f else xs[j]? := by
  intro xs
  induction xs with
  | nil => intro i j; simp [modifyAt]
  | cons x xs ih =>
    intro i j
    cases i with
    | zero =>
      cases j with
      | zero => simp [modifyAt]
      | succ j => simp [modifyAt]
    | succ i =>
      cases j with
      | zero => simp [modifyAt]
      | succ j => simp [modifyAt, ih i j]

theorem modifyAt_append_singleton {α : Type} (f : α → α) (xs : List α) (y : α) :
    modifyAt f (xs ++ [y]) xs.length = xs ++ [f y] := by
  induction xs with
  | nil => rfl
  | cons x xs ih => simp [modifyAt, ih]

theorem map_modifyAt_of_eq {α β : Type} (g : α → β) (f : α → α) (hf : ∀ x, g (f x) = g x) :
    ∀ (xs : List α) (i : Nat), (modifyAt f xs i).map g = xs.map g := by
  intro xs
  induction xs with
  | nil => intro i; rfl
  | cons x xs ih =>
    intro i
    cases i with
    | zero => simp [modifyAt, hf]
    | succ i => simp [modifyAt, ih i]

/-- Reading the cart back after `saveCart` gives what was saved. -/
theorem getCart_saveCart (ls : LocalStorage) (cart : List CartItem) :
    getCart (saveCart ls cart) = .ok cart := rfl

/-! ## The cart -/

/-- What `addToCart` does on a cart that has no line of the product. -/
theorem addToCart_new_line (ls : LocalStorage) (cart : List CartItem) (p : Product)
    (now : String) (hcart : getCart ls = .ok cart)
    (hnew : findIndex (sameLine p) cart = none) :
    addToCart ls p now =
      (.ok (cart ++ [{ id := p.id, name := p.name, price := p.price, image := p.image,
                       color := p.color, size := p.size.or .null, quantity := 1,
                       addedAt := now }]),
       saveCart ls (cart ++ [{ id := p.id, name := p.name, price := p.price, image := p.image,
                               color := p.color, size := p.size.or .null, quantity := 1,
                               addedAt := now }])) := by
  simp [addToCart, hcart, hnew]

/-- What `addToCart` does on a cart that has a line of the product. -/
theorem addToCart_existing_line (ls : LocalStorage) (cart : List CartItem) (p : Product)
    (now : String) (i : Nat) (hcart : getCart ls = .ok cart)
    (hold : findIndex (sameLine p) cart = some i) :
    addToCart ls p now =
      (.ok (modifyAt (fun item => { item with quantity := item.quantity + 1 }) cart i),
       saveCart ls (modifyAt (fun item => { item with quantity := item.quantity + 1 }) cart i)) := by
  simp [addToCart, hcart, hold]

/-- Adding twice a product whose size is `null` or truthy, to a cart that has
no line of it, leaves one more line, of quantity 2. -/
theorem addToCart_twice_merges (ls : LocalStorage) (cart : List CartItem) (p : Product)
    (t1 t2 : String) (hcart : getCart ls = .ok cart)
    (hnew : findIndex (sameLine p) cart = none) (hsize : p.size.or .null = p.size) :
    (addToCart (addToCart ls p t1).2 p t2).1 =
      .ok (cart ++ [{ id := p.id, name := p.name, price := p.price, image := p.image,
                      color := p.color, size := p.size, quantity := 2, addedAt := t1 }]) := by
  rw [addToCart_new_line ls cart p t1 hcart hnew]
  have hfound := findIndex_append_singleton (sameLine p) cart
    { id := p.id, name := p.name, price := p.price, image := p.image, color := p.color,
      size := p.size.or .null, quantity := 1, addedAt := t1 } hnew
    (by simp [sameLine, hsize])
  rw [addToCart_existing_line _ _ p t2 cart.length (getCart_saveCart _ _) hfound,
    modifyAt_append_singleton]
  simp [hsize]

/-- C1, at the failing input: a product with a color and no `size` property is
added twice to an empty cart.  The first call stores the line with size `null`;
the second call compares that `null` with the product's `undefined`, finds no
line and appends another: two lines of quantity 1, not one line of quantity 2. -/
theorem addToCart_twice_without_size_two_lines :
    getCart emptyStorage = .ok [] ∧
    (addToCart (addToCart emptyStorage phoneNoSize "t1").2 phoneNoSize "t2").1 =
      .ok [{ phoneLine with addedAt := "t1" }, { phoneLine with addedAt := "t2" }] ∧
    getCart (addToCart (addToCart emptyStorage phoneNoSize "t1").2 phoneNoSize "t2").2 =
      .ok [{ phoneLine with addedAt := "t1" }, { phoneLine with addedAt := "t2" }] :=
  ⟨rfl, rfl, rfl⟩

/-- Removing a line keeps the identities of the cart distinct. -/
theorem uniqueIdentities_removeFromCart (ls : LocalStorage) (cart : List CartItem)
    (index : Int) (hcart : getCart ls = .ok cart) (huniq : uniqueIdentities cart) :
    ∃ cart', (removeFromCart ls index).1 = .ok cart' ∧
      getCart (removeFromCart ls index).2 = .ok cart' ∧ uniqueIdentities cart' := by
  refine ⟨splice1 cart index, by simp [removeFromCart, hcart],
    by simp [removeFromCart, hcart, getCart_saveCart], ?_⟩
  exact List.Nodup.sublist ((List.eraseIdx_sublist cart _).map CartItem.identity) huniq

/-- Setting a quantity, or removing the line when the quantity is not positive,
keeps the identities of the cart distinct. -/
theorem uniqueIdentities_updateCartQuantity (ls : LocalStorage) (cart : List CartItem)
    (index quantity : Int) (hcart : getCart ls = .ok cart) (huniq : uniqueIdentities cart)
    (cart' : List CartItem) (hout : (updateCartQuantity ls index quantity).1 = .ok cart') :
    getCart (updateCartQuantity ls index quantity).2 = .ok cart' ∧ uniqueIdentities cart' := by
  unfold updateCartQuantity at hout ⊢
  simp only [hcart] at hout ⊢
  by_cases hq : quantity ≤ 0
  · simp only [hq, if_true] at hout ⊢
    obtain ⟨c, h1, h2, h3⟩ := uniqueIdentities_removeFromCart ls cart index hcart huniq
    rw [h1] at hout
    cases hout
    exact ⟨h2, h3⟩
  · by_cases hi : 0 ≤ index ∧ index < cart.length
    · simp only [hq, hi, if_false, and_self, if_true] at hout ⊢
      cases hout
      refine ⟨getCart_saveCart _ _, ?_⟩
      unfold uniqueIdentities
      rw [map_modifyAt_of_eq CartItem.identity
        (fun item => { item with quantity := quantity }) (fun _ => rfl)]
      exact huniq
    · simp [hq, hi] at hout

/-- C2, at the failing input: the cart holds one line, stored with size `null`
by an earlier `addToCart` of a product without a `size` property, so its
identities are distinct.  Adding that product again appends a second line with
the same `(id, color, size)`: uniqueness is lost under `addToCart`. -/
theorem addToCart_without_size_duplicates_identity :
    getCart (withCart [phoneLine]) = .ok [phoneLine] ∧
    uniqueIdentities [phoneLine] ∧
    getCart (addToCart (withCart [phoneLine]) phoneNoSize "t2").2 =
      .ok [phoneLine, { phoneLine with addedAt := "t2" }] ∧
    ¬ uniqueIdentities [phoneLine, { phoneLine with addedAt := "t2" }] :=
  ⟨rfl, by decide, rfl, by decide⟩

/-- C6, refuted as stated: when the text under the cart key is not valid JSON,
`getCart` throws the `SyntaxError` of `JSON.parse` and returns nothing. -/
theorem getCart_throws_on_invalid_text :
    getCart { emptyStorage with cart := some (.invalid "not json") } = .error .syntaxError :=
  rfl

/-- C6, amended: `getCart` returns the empty sequence when nothing is persisted
(or the empty string is), returns the persisted cart when the text is the JSON
of one, and throws a `SyntaxError` when the text is not valid JSON. -/
theorem getCart_cases (ls : LocalStorage) :
    (ls.cart = none ∨ ls.cart = some .empty → getCart ls = .ok []) ∧
    (∀ cart, ls.cart = some (.json cart) → getCart ls = .ok cart) ∧
    (∀ raw, ls.cart = some (.invalid raw) → getCart ls = .error .syntaxError) := by
  refine ⟨?_, ?_, ?_⟩
  · rintro (h | h) <;> simp [getCart, h, Text.truthy]
  · intro cart h
    simp [getCart, h, Text.truthy, JSON.parse]
  · intro raw h
    simp [getCart, h, Text.truthy, JSON.parse]

theorem getCart_cases_witness :
    getCart emptyStorage = .ok [] ∧
    getCart (withCart [phoneLine]) = .ok [phoneLine] ∧
    getCart { emptyStorage with cart := some (.invalid "not json") } = .error .syntaxError :=
  ⟨(getCart_cases emptyStorage).1 (Or.inl rfl),
   (getCart_cases (withCart [phoneLine])).2.1 [phoneLine] rfl,
   (getCart_cases { emptyStorage with cart := some (.invalid "not json") }).2.2 "not json" rfl⟩

/-- C7, refuted as stated: index `-1` is out of range and `removeFromCart(-1)`
is not a no-op; `splice(-1, 1)` removes the last line of the cart. -/
theorem removeFromCart_negative_index_removes :
    getCart (withCart [phoneLine, phoneLineSilver]) = .ok [phoneLine, phoneLineSilver] ∧
    (removeFromCart (withCart [phoneLine, phoneLineSilver]) (-1)).1 = .ok [phoneLine] ∧
    getCart (removeFromCart (withCart [phoneLine, phoneLineSilver]) (-1)).2 = .ok [phoneLine] :=
  ⟨rfl, rfl, rfl⟩

/-- C7, amended: for an index greater than or equal to the length of the cart,
`removeFromCart` raises no error and the cart it returns and persists equals
the cart before the call; for a negative index it raises no error and removes
the line at position `max (length + index) 0`, counted as `splice` counts. -/
theorem removeFromCart_out_of_range (ls : LocalStorage) (cart : List CartItem) (index : Int)
    (hcart : getCart ls = .ok cart) :
    (↑cart.length ≤ index →
      (removeFromCart ls index).1 = .ok cart ∧
      getCart (removeFromCart ls index).2 = .ok cart) ∧
    (index < 0 →
      (removeFromCart ls index).1 =
        .ok (cart.eraseIdx (max (↑cart.length + index) 0).toNat) ∧
      getCart (removeFromCart ls index).2 =
        .ok (cart.eraseIdx (max (↑cart.length + index) 0).toNat)) := by
  constructor
  · intro hge
    have hsplice : splice1 cart index = cart := by
      have h0 : ¬ index < 0 := by omega
      simp only [splice1, if_neg h0]
      apply List.eraseIdx_of_length_le
      omega
    simp [removeFromCart, hcart, hsplice, getCart_saveCart]
  · intro hneg
    have hsplice : splice1 cart index = cart.eraseIdx (max (↑cart.length + index) 0).toNat := by
      simp only [splice1, hneg, if_true]
    simp [removeFromCart, hcart, hsplice, getCart_saveCart]

theorem removeFromCart_out_of_range_witness :
    ((removeFromCart (withCart [phoneLine, phoneLineSilver]) 2).1 =
        .ok [phoneLine, phoneLineSilver] ∧
      getCart (removeFromCart (withCart [phoneLine, phoneLineSilver]) 2).2 =
        .ok [phoneLine, phoneLineSilver]) ∧
    ((removeFromCart (withCart [phoneLine, phoneLineSilver]) (-5)).1 =
        .ok ([phoneLine, phoneLineSilver].eraseIdx
          (max (↑[phoneLine, phoneLineSilver].length + (-5 : Int)) 0).toNat) ∧
      getCart (removeFromCart (withCart [phoneLine, phoneLineSilver]) (-5)).2 =
        .ok ([phoneLine, phoneLineSilver].eraseIdx
          (max (↑[phoneLine, phoneLineSilver].length + (-5 : Int)) 0).toNat)) :=
  ⟨(removeFromCart_out_of_range (withCart [phoneLine, phoneLineSilver])
      [phoneLine, phoneLineSilver] 2 rfl).1 (by decide),
   (removeFromCart_out_of_range (withCart [phoneLine, phoneLineSilver])
      [phoneLine, phoneLineSilver] (-5) rfl).2 (by decide)⟩

/-- C8: for a valid index `i` and a quantity `q ≤ 0`, `updateCartQuantity(i, q)`
raises no error and returns and persists the cart without its line `i`: the
lines before `i` followed by the lines after `i`, unchanged and in order, one
line fewer than before. -/
theorem updateCartQuantity_nonpositive_removes (ls : LocalStorage) (cart : List CartItem)
    (i q : Int) (hcart : getCart ls = .ok cart) (hi0 : 0 ≤ i) (hi : i < cart.length)
    (hq : q ≤ 0) :
    (updateCartQuantity ls i q).1 = .ok (cart.take i.toNat ++ cart.drop (i.toNat + 1)) ∧
    getCart (updateCartQuantity ls i q).2 =
      .ok (cart.take i.toNat ++ cart.drop (i.toNat + 1)) ∧
    (cart.take i.toNat ++ cart.drop (i.toNat + 1)).length + 1 = cart.length := by
  have hsplice : splice1 cart i = cart.take i.toNat ++ cart.drop (i.toNat + 1) := by
    have h0 : ¬ i < 0 := by omega
    simp only [splice1, if_neg h0]
    rw [min_eq_left (le_of_lt hi), List.eraseIdx_eq_take_drop_succ]
  refine ⟨?_, ?_, ?_⟩
  · simp [updateCartQuantity, hcart, hq, removeFromCart, hsplice]
  · simp [updateCartQuantity, hcart, hq, removeFromCart, hsplice, getCart_saveCart]
  · rw [← List.eraseIdx_eq_take_drop_succ, List.length_eraseIdx]
    have hlt : i.toNat < cart.length := by omega
    simp only [hlt, if_true]
    omega

theorem updateCartQuantity_nonpositive_removes_witness :
    (updateCartQuantity (withCart [phoneLine, phoneLineSilver]) 0 0).1 =
      .ok ([phoneLine, phoneLineSilver].take (0 : Int).toNat ++
        [phoneLine, phoneLineSilver].drop ((0 : Int).toNat + 1)) ∧
    getCart (updateCartQuantity (withCart [phoneLine, phoneLineSilver]) 0 0).2 =
      .ok ([phoneLine, phoneLineSilver].take (0 : Int).toNat ++
        [phoneLine, phoneLineSilver].drop ((0 : Int).toNat + 1)) ∧
    ([phoneLine, phoneLineSilver].take (0 : Int).toNat ++
      [phoneLine, phoneLineSilver].drop ((0 : Int).toNat + 1)).length + 1 =
      [phoneLine, phoneLineSilver].length :=
  updateCartQuantity_nonpositive_removes (withCart [phoneLine, phoneLineSilver])
    [phoneLine, phoneLineSilver] 0 0 rfl (by decide) (by decide) (by decide)

/-! ## Orders: reading and writing under a session -/

theorem toJSON_toJSON_message (m : Message) : m.toJSON.toJSON = m.toJSON := by
  cases m with
  | text s => rfl
  | inherited key =>
    by_cases hkey : key = "__proto__" <;> simp [Message.toJSON, hkey]
  | undefined => rfl
  | emptyObject => rfl

theorem toJSON_toJSON_entry (entry : StatusEntry) : entry.toJSON.toJSON = entry.toJSON := by
  simp [StatusEntry.toJSON, toJSON_toJSON_message]

theorem toJSON_toJSON_order (order : Order) : order.toJSON.toJSON = order.toJSON := by
  simp [Order.toJSON, toJSON_toJSON_entry]

/-- Writing and reading a second time changes nothing more. -/
theorem map_toJSON_map_toJSON (orders : List Order) :
    (orders.map Order.toJSON).map Order.toJSON = orders.map Order.toJSON := by
  simp [toJSON_toJSON_order]

theorem getOrders_of_session (ls : LocalStorage) (user : User) (hs : activeSession ls user) :
    getOrders ls =
      match ls.orders user.id.render with
      | none => .ok []
      | some orders =>
        if orders.truthy then (JSON.parse orders).map (List.map Order.toJSON) else .ok [] := by
  unfold activeSession at hs
  simp [getOrders, hs, Text.truthy, JSON.parse]

theorem saveOrders_of_session (ls : LocalStorage) (user : User) (orders : List Order)
    (hs : activeSession ls user) :
    saveOrders ls orders =
      (.ok (), { ls with orders := fun key =>
                  if key = user.id.render then some (JSON.stringify (orders.map Order.toJSON))
                  else ls.orders key }) := by
  unfold activeSession at hs
  simp [saveOrders, hs, Text.truthy, JSON.parse]

/-- Under a session, reading the orders back after `saveOrders` gives what
JSON keeps of the list that was saved. -/
theorem getOrders_saveOrders (ls : LocalStorage) (user : User) (orders : List Order)
    (hs : activeSession ls user) :
    getOrders (saveOrders ls orders).2 = .ok (orders.map Order.toJSON) := by
  have hs' : activeSession (saveOrders ls orders).2 user := by
    rw [saveOrders_of_session ls user orders hs]
    exact hs
  rw [getOrders_of_session _ user hs', saveOrders_of_session ls user orders hs]
  simp [JSON.stringify, JSON.parse, Text.truthy, Except.map, toJSON_toJSON_order]

/-- An order list that is read is empty, or is what JSON keeps of a list stored
for the user of the active session. -/
theorem getOrders_cases (ls : LocalStorage) (orders : List Order)
    (ho : getOrders ls = .ok orders) :
    orders = [] ∨
      ∃ user stored, activeSession ls user ∧
        ls.orders user.id.render = some (.json stored) ∧
        orders = stored.map Order.toJSON := by
  unfold getOrders at ho
  unfold activeSession
  cases hcu : ls.currentUser with
  | none =>
    rw [hcu] at ho
    cases ho
    exact Or.inl rfl
  | some currentUser =>
    rw [hcu] at ho
    cases currentUser with
    | empty =>
      simp only [Text.truthy] at ho
      cases ho
      exact Or.inl rfl
    | invalid raw => simp [Text.truthy, JSON.parse] at ho
    | json user =>
      simp only [Text.truthy, JSON.parse] at ho
      cases hord : ls.orders user.id.render with
      | none =>
        simp only [hord] at ho
        cases ho
        exact Or.inl rfl
      | some text =>
        simp only [hord] at ho
        cases text with
        | empty =>
          simp only [Text.truthy] at ho
          cases ho
          exact Or.inl rfl
        | invalid raw => simp [Text.truthy, JSON.parse, Except.map] at ho
        | json value =>
          simp only [Text.truthy, JSON.parse, Except.map] at ho
          cases ho
          exact Or.inr ⟨user, value, rfl, hord, rfl⟩

/-- An order list that is read holds JSON values only. -/
theorem getOrders_toJSON (ls : LocalStorage) (orders : List Order)
    (ho : getOrders ls = .ok orders) : orders.map Order.toJSON = orders := by
  rcases getOrders_cases ls orders ho with h | ⟨_, stored, _, _, h⟩
  · rw [h]
    rfl
  · rw [h]
    exact map_toJSON_map_toJSON stored

/-- A non-empty order list is read only under a session. -/
theorem session_of_getOrders (ls : LocalStorage) (orders : List Order)
    (ho : getOrders ls = .ok orders) (hne : orders ≠ []) :
    ∃ user, activeSession ls user := by
  rcases getOrders_cases ls orders ho with h | ⟨user, _, hs, _, _⟩
  · exact absurd h hne
  · exact ⟨user, hs⟩

theorem findIndex_of_find {α : Type} (p : α → Bool) (xs : List α) (x : α)
    (h : find p xs = some x) : ∃ i, findIndex p xs = some i ∧ xs[i]? = some x := by
  cases hi : findIndex p xs with
  | none => rw [find_eq_none_of_findIndex p xs hi] at h; cases h
  | some i => exact ⟨i, rfl, by rw [← find_eq_getElem?_of_findIndex p xs i hi, h]⟩

theorem find_modifyAt_findIndex {α : Type} (p : α → Bool) (f : α → α) :
    ∀ (xs : List α) (i : Nat), findIndex p xs = some i → (∀ x, p (f x) = p x) →
      find p (modifyAt f xs i) = (find p xs).map f := by
  intro xs
  induction xs with
  | nil => intro i h; simp [findIndex] at h
  | cons x xs ih =>
    intro i h hf
    by_cases hx : p x = true
    · simp [findIndex, hx] at h
      subst h
      simp [modifyAt, find, hx, hf]
    · simp [findIndex, hx] at h
      obtain ⟨j, hj, rfl⟩ := h
      simp [modifyAt, find, hx, ih j hj hf]

/-! ## Orders -/

/-- Mapping a function that fixes every element of the list over the list
modified at one index modifies the list at that index by the composition. -/
theorem map_modifyAt_of_fixed {α : Type} (g f : α → α) :
    ∀ (xs : List α) (i : Nat), xs.map g = xs →
      (modifyAt f xs i).map g = modifyAt (fun x => g (f x)) xs i := by
  intro xs
  induction xs with
  | nil => intro i _; rfl
  | cons a as ih =>
    intro i hfix
    rw [List.map_cons, List.cons.injEq] at hfix
    obtain ⟨ha, has⟩ := hfix
    cases i with
    | zero => simp [modifyAt, has]
    | succ i => simp [modifyAt, ha, ih i has]

/-- What `updateOrderStatus` does when an order has the id: `i` is the index of
the first one.  The list returned has the new status and one more history entry
at that index; the list persisted is the same with what JSON keeps of that
order. -/
theorem updateOrderStatus_found (ls : LocalStorage) (orders : List Order)
    (orderId newStatus now : String) (i : Nat) (ho : getOrders ls = .ok orders)
    (hi : findIndex (fun order => order.id == orderId) orders = some i) :
    (updateOrderStatus ls orderId newStatus now).1 =
      .ok (modifyAt (fun order =>
        { order with
          status := newStatus,
          statusHistory := order.statusHistory ++
            [{ status := newStatus, date := now, message := getStatusMessage newStatus }] })
        orders i) ∧
    getOrders (updateOrderStatus ls orderId newStatus now).2 =
      .ok (modifyAt (fun order => Order.toJSON
        { order with
          status := newStatus,
          statusHistory := order.statusHistory ++
            [{ status := newStatus, date := now, message := getStatusMessage newStatus }] })
        orders i) := by
  have hne : orders ≠ [] := by
    intro h
    rw [h] at hi
    simp [findIndex] at hi
  obtain ⟨user, hs⟩ := session_of_getOrders ls orders ho hne
  have hget := getOrders_saveOrders ls user (modifyAt (fun order =>
        { order with
          status := newStatus,
          statusHistory := order.statusHistory ++
            [{ status := newStatus, date := now, message := getStatusMessage newStatus }] })
        orders i) hs
  rw [map_modifyAt_of_fixed Order.toJSON _ orders i (getOrders_toJSON ls orders ho),
    saveOrders_of_session ls user _ hs] at hget
  constructor
  · simp [updateOrderStatus, ho, hi, saveOrders_of_session ls user _ hs]
  · simp only [updateOrderStatus, ho, hi, saveOrders_of_session ls user _ hs]
    exact hget

/-- What `updateOrderStatus` does when no order has the id: nothing. -/
theorem updateOrderStatus_not_found (ls : LocalStorage) (orders : List Order)
    (orderId newStatus now : String) (ho : getOrders ls = .ok orders)
    (hi : findIndex (fun order => order.id == orderId) orders = none) :
    updateOrderStatus ls orderId newStatus now = (.ok orders, ls) := by
  simp [updateOrderStatus, ho, hi]

/-- In a history whose ids are pairwise distinct, the order `find` returns for
an id is the one order of the history that has the id. -/
theorem find_id_iff_mem (orders : List Order) (orderId : String) (order : Order)
    (huniq : uniqueOrderIds orders) :
    find (fun o => o.id == orderId) orders = some order ↔
      order ∈ orders ∧ order.id = orderId := by
  unfold uniqueOrderIds at huniq
  induction orders with
  | nil => simp [find]
  | cons a as ih =>
    rw [List.map_cons, List.nodup_cons] at huniq
    obtain ⟨hfresh, hrest⟩ := huniq
    by_cases ha : a.id = orderId
    · have hp : (a.id == orderId) = true := by simpa using ha
      simp only [find, hp, if_true, Option.some.injEq, List.mem_cons]
      constructor
      · rintro rfl
        exact ⟨Or.inl rfl, ha⟩
      · rintro ⟨hmem | hmem, hid⟩
        · exact hmem.symm
        · exact absurd (List.mem_map.mpr ⟨order, hmem, hid.trans ha.symm⟩) hfresh
    · have hp : (a.id == orderId) = false := by simpa using ha
      simp only [find, hp, List.mem_cons]
      rw [if_neg (by simp), ih hrest]
      constructor
      · rintro ⟨hmem, hid⟩
        exact ⟨Or.inr hmem, hid⟩
      · rintro ⟨hmem | hmem, hid⟩
        · subst hmem
          exact absurd hid ha
        · exact ⟨hmem, hid⟩

/-- C3: for every storage whose persisted orders read as `orders`,
`cancelOrder(orderId)` changes the persisted orders if and only if the order
with that id (the one `find` returns, the first with the id) exists and has
status `pending` or `packed`; then the order with that id has status
`cancelled` afterwards; in every other case the storage is left as it was.
In a history with pairwise distinct ids that order is the only one with the id
(`find_id_iff_mem`). -/
theorem cancelOrder_guard (ls : LocalStorage) (orders : List Order)
    (orderId now : String) (ho : getOrders ls = .ok orders) :
    (getOrders (cancelOrder ls orderId now).2 ≠ .ok orders ↔
      ∃ order, find (fun o => o.id == orderId) orders = some order ∧
        (order.status = "pending" ∨ order.status = "packed")) ∧
    ((∃ order, find (fun o => o.id == orderId) orders = some order ∧
        (order.status = "pending" ∨ order.status = "packed")) →
      ∃ orders' order', getOrders (cancelOrder ls orderId now).2 = .ok orders' ∧
        find (fun o => o.id == orderId) orders' = some order' ∧
        order'.status = "cancelled") ∧
    ((¬ ∃ order, find (fun o => o.id == orderId) orders = some order ∧
        (order.status = "pending" ∨ order.status = "packed")) →
      (cancelOrder ls orderId now).2 = ls) := by
  have hyes : (∃ order, find (fun o => o.id == orderId) orders = some order ∧
        (order.status = "pending" ∨ order.status = "packed")) →
      ∃ orders' order', getOrders (cancelOrder ls orderId now).2 = .ok orders' ∧
        find (fun o => o.id == orderId) orders' = some order' ∧
        order'.status = "cancelled" ∧ orders' ≠ orders := by
    rintro ⟨order, hfind, hstatus⟩
    obtain ⟨i, hi, hget⟩ := findIndex_of_find _ orders order hfind
    obtain ⟨h1, h2⟩ := updateOrderStatus_found ls orders orderId "cancelled" now i ho hi
    have hcond : (order.status == "pending" || order.status == "packed") = true := by
      rcases hstatus with h | h <;> simp [h]
    have hstore : (cancelOrder ls orderId now).2 =
        (updateOrderStatus ls orderId "cancelled" now).2 := by
      simp only [cancelOrder, ho, hfind, hcond, if_true]
      generalize updateOrderStatus ls orderId "cancelled" now = out at h1
      obtain ⟨r, st⟩ := out
      simp only at h1
      subst h1
      rfl
    refine ⟨_, Order.toJSON { order with
        status := "cancelled",
        statusHistory := order.statusHistory ++
          [{ status := "cancelled", date := now, message := getStatusMessage "cancelled" }] },
      hstore ▸ h2, ?_, rfl, ?_⟩
    · refine (find_modifyAt_findIndex _ _ orders i hi ?_).trans ?_
      · intro o
        rfl
      · rw [hfind]
        rfl
    · intro heq
      have hlen := congrArg (fun os => (os[i]?).map (fun o => o.statusHistory.length)) heq
      simp [getElem?_modifyAt, hget, Order.toJSON] at hlen
  have hno : (¬ ∃ order, find (fun o => o.id == orderId) orders = some order ∧
        (order.status = "pending" ∨ order.status = "packed")) →
      (cancelOrder ls orderId now).2 = ls := by
    intro hnot
    cases hfind : find (fun o => o.id == orderId) orders with
    | none => simp [cancelOrder, ho, hfind]
    | some order =>
      have hcond : (order.status == "pending" || order.status == "packed") = false := by
        cases hb : (order.status == "pending" || order.status == "packed") with
        | false => rfl
        | true =>
          exfalso
          apply hnot
          refine ⟨order, hfind, ?_⟩
          simpa using hb
      simp [cancelOrder, ho, hfind, hcond]
  refine ⟨⟨?_, ?_⟩, ?_, hno⟩
  · intro hchanged
    by_contra hnot
    exact hchanged (by rw [hno hnot]; exact ho)
  · intro hex hsame
    obtain ⟨orders', _, hget, _, _, hne⟩ := hyes hex
    rw [hget] at hsame
    cases hsame
    exact hne rfl
  · intro hex
    obtain ⟨orders', order', h1, h2, h3, _⟩ := hyes hex
    exact ⟨orders', order', h1, h2, h3⟩

theorem cancelOrder_guard_witness :
    (∃ orders' order',
      getOrders (cancelOrder (withOrders [sampleOrder "ORD-1" "packed"]) "ORD-1" "t").2 =
        .ok orders' ∧
      find (fun o => o.id == "ORD-1") orders' = some order' ∧ order'.status = "cancelled") ∧
    (cancelOrder (withOrders [sampleOrder "ORD-1" "shipped"]) "ORD-1" "t").2 =
      withOrders [sampleOrder "ORD-1" "shipped"] :=
  ⟨(cancelOrder_guard (withOrders [sampleOrder "ORD-1" "packed"])
      [sampleOrder "ORD-1" "packed"] "ORD-1" "t" rfl).2.1
      ⟨sampleOrder "ORD-1" "packed", rfl, Or.inr rfl⟩,
   (cancelOrder_guard (withOrders [sampleOrder "ORD-1" "shipped"])
      [sampleOrder "ORD-1" "shipped"] "ORD-1" "t" rfl).2.2
      (by
        rintro ⟨order, hfind, hstatus⟩
        have horder : sampleOrder "ORD-1" "shipped" = order := Option.some.inj hfind
        subst horder
        revert hstatus
        decide)⟩

/-- What `createOrder` does under a session when the orders can be read: it
returns the new order and persists it in front of the orders read. -/
theorem createOrder_of_session (ls : LocalStorage) (user : User) (prev : List Order)
    (cartItems : List CartItem) (total : JsValue) (nowMs : Nat)
    (orderDate historyDate : String)
    (hs : activeSession ls user) (hprev : getOrders ls = .ok prev) :
    (createOrder ls cartItems total nowMs orderDate historyDate).1 =
      .ok { id := "ORD-" ++ toString nowMs, items := cartItems, total := total,
            status := "pending", orderDate := orderDate,
            statusHistory := [{ status := "pending", date := historyDate,
                                message := .text "Order placed successfully" }],
            shippingAddress := none } ∧
    getOrders (createOrder ls cartItems total nowMs orderDate historyDate).2 =
      .ok ({ id := "ORD-" ++ toString nowMs, items := cartItems, total := total,
             status := "pending", orderDate := orderDate,
             statusHistory := [{ status := "pending", date := historyDate,
                                 message := .text "Order placed successfully" }],
             shippingAddress := none } :: prev) := by
  constructor
  · simp [createOrder, hprev, saveOrders_of_session ls user _ hs]
  · have hget := getOrders_saveOrders ls user
      ({ id := "ORD-" ++ toString nowMs, items := cartItems, total := total,
         status := "pending", orderDate := orderDate,
         statusHistory := [{ status := "pending", date := historyDate,
                             message := .text "Order placed successfully" }],
         shippingAddress := none } :: prev) hs
    rw [List.map_cons, getOrders_toJSON ls prev hprev,
      saveOrders_of_session ls user _ hs] at hget
    simp only [createOrder, hprev, saveOrders_of_session ls user _ hs]
    exact hget

/-- C4, refuted as stated: a session is active and the text stored for the
user's orders is not valid JSON.  `createOrder` throws the `SyntaxError` of
`getOrders`, returns no order and leaves the storage as it was: no order is
prepended, and `getOrders` afterwards still throws. -/
theorem createOrder_throws_and_prepends_nothing :
    activeSession { signedIn with orders := fun _ => some (.invalid "not json") }
      { id := .string "u1" } ∧
    (createOrder { signedIn with orders := fun _ => some (.invalid "not json") }
      [phoneLine] (.number 57000) 1704067200000 "2024-01-01T00:00:00.000Z"
      "2024-01-01T00:00:00.000Z").1 = .error .syntaxError ∧
    (createOrder { signedIn with orders := fun _ => some (.invalid "not json") }
      [phoneLine] (.number 57000) 1704067200000 "2024-01-01T00:00:00.000Z"
      "2024-01-01T00:00:00.000Z").2 =
        { signedIn with orders := fun _ => some (.invalid "not json") } ∧
    getOrders (createOrder { signedIn with orders := fun _ => some (.invalid "not json") }
      [phoneLine] (.number 57000) 1704067200000 "2024-01-01T00:00:00.000Z"
      "2024-01-01T00:00:00.000Z").2 = .error .syntaxError :=
  ⟨rfl, rfl, rfl, rfl⟩

/-- C4, amended: under a session, when the orders persisted before the call
can be read and are `prev`, `createOrder` returns the new order and the orders
persisted afterwards are the new order followed by `prev`; so the first
persisted order has the id of the returned one. -/
theorem createOrder_prepends (ls : LocalStorage) (user : User) (prev : List Order)
    (cartItems : List CartItem) (total : JsValue) (nowMs : Nat)
    (orderDate historyDate : String)
    (hs : activeSession ls user) (hprev : getOrders ls = .ok prev) :
    ∃ newOrder,
      (createOrder ls cartItems total nowMs orderDate historyDate).1 = .ok newOrder ∧
      getOrders (createOrder ls cartItems total nowMs orderDate historyDate).2 =
        .ok (newOrder :: prev) ∧
      (newOrder :: prev)[0]?.map Order.id = some newOrder.id := by
  obtain ⟨hret, hget⟩ :=
    createOrder_of_session ls user prev cartItems total nowMs orderDate historyDate hs hprev
  exact ⟨_, hret, hget, by simp⟩

theorem createOrder_prepends_witness :
    ∃ newOrder,
      (createOrder (withOrders [sampleOrder "ORD-1" "shipped"]) [phoneLine] (.number 57000)
        1704067200000 "2024-01-01T00:00:00.000Z" "2024-01-01T00:00:00.000Z").1 =
        .ok newOrder ∧
      getOrders (createOrder (withOrders [sampleOrder "ORD-1" "shipped"]) [phoneLine]
        (.number 57000) 1704067200000 "2024-01-01T00:00:00.000Z"
        "2024-01-01T00:00:00.000Z").2 = .ok (newOrder :: [sampleOrder "ORD-1" "shipped"]) ∧
      (newOrder :: [sampleOrder "ORD-1" "shipped"])[0]?.map Order.id = some newOrder.id :=
  createOrder_prepends (withOrders [sampleOrder "ORD-1" "shipped"]) { id := .string "u1" }
    [sampleOrder "ORD-1" "shipped"] [phoneLine] (.number 57000) 1704067200000
    "2024-01-01T00:00:00.000Z" "2024-01-01T00:00:00.000Z" rfl rfl

/-- C5, refuted as stated: the history holds the order `ORD-1704067200000`
and the clock reads `1704067200000`; the ids are distinct before `createOrder`
and the id `ORD-1704067200000` is persisted twice after it. -/
theorem createOrder_repeats_id :
    getOrders (withOrders [sampleOrder "ORD-1704067200000" "pending"]) =
      .ok [sampleOrder "ORD-1704067200000" "pending"] ∧
    uniqueOrderIds [sampleOrder "ORD-1704067200000" "pending"] ∧
    ∃ orders,
      getOrders (createOrder (withOrders [sampleOrder "ORD-1704067200000" "pending"])
        [phoneLine] (.number 57000) 1704067200000 "2024-01-01T00:00:00.000Z"
        "2024-01-01T00:00:00.000Z").2 = .ok orders ∧
      orders.map Order.id = ["ORD-1704067200000", "ORD-1704067200000"] ∧
      ¬ uniqueOrderIds orders :=
  ⟨rfl, by decide, _, rfl, by decide, by decide⟩

/-- C5, amended: under a session, when the order ids of the history are
pairwise distinct and no order of the history has the id `"ORD-" + Date.now()`
that the call generates, the order ids persisted after `createOrder` are
pairwise distinct. -/
theorem createOrder_keeps_ids_distinct (ls : LocalStorage) (user : User) (prev : List Order)
    (cartItems : List CartItem) (total : JsValue) (nowMs : Nat)
    (orderDate historyDate : String)
    (hs : activeSession ls user) (hprev : getOrders ls = .ok prev)
    (huniq : uniqueOrderIds prev)
    (hfresh : ∀ order ∈ prev, order.id ≠ "ORD-" ++ toString nowMs) :
    ∃ orders,
      getOrders (createOrder ls cartItems total nowMs orderDate historyDate).2 = .ok orders ∧
      uniqueOrderIds orders := by
  obtain ⟨_, hget⟩ :=
    createOrder_of_session ls user prev cartItems total nowMs orderDate historyDate hs hprev
  refine ⟨_, hget, ?_⟩
  unfold uniqueOrderIds at huniq ⊢
  rw [List.map_cons, List.nodup_cons]
  refine ⟨?_, huniq⟩
  intro hmem
  obtain ⟨order, horder, heq⟩ := List.mem_map.mp hmem
  exact hfresh order horder heq

theorem createOrder_keeps_ids_distinct_witness :
    ∃ orders,
      getOrders (createOrder (withOrders [sampleOrder "ORD-1" "shipped"]) [phoneLine]
        (.number 57000) 1704067200000 "2024-01-01T00:00:00.000Z"
        "2024-01-01T00:00:00.000Z").2 = .ok orders ∧
      uniqueOrderIds orders :=
  createOrder_keeps_ids_distinct (withOrders [sampleOrder "ORD-1" "shipped"])
    { id := .string "u1" } [sampleOrder "ORD-1" "shipped"] [phoneLine] (.number 57000)
    1704067200000 "2024-01-01T00:00:00.000Z" "2024-01-01T00:00:00.000Z" rfl rfl
    (by decide) (by decide)

/-- The index `findIndex` returns is that of the first element that satisfies the predicate. -/
theorem findIndex_of_first {α : Type} (p : α → Bool) :
    ∀ (xs : List α) (i : Nat) (x : α), xs[i]? = some x → p x = true →
      (∀ j y, j < i → xs[j]? = some y → p y = false) → findIndex p xs = some i := by
  intro xs
  induction xs with
  | nil => intro i x h; simp at h
  | cons a as ih =>
    intro i x hx hp hfirst
    cases i with
    | zero =>
      simp at hx
      subst hx
      simp [findIndex, hp]
    | succ i =>
      have ha : p a = false := hfirst 0 a (Nat.succ_pos i) (by simp)
      have hrec := ih i x (by simpa using hx) hp
        (fun j y hj hy => hfirst (j + 1) y (Nat.succ_lt_succ hj) (by simpa using hy))
      simp [findIndex, ha, hrec]

/-- The messages of the table of `getStatusMessage`. -/
theorem getStatusMessage_table :
    getStatusMessage "pending" = .text "Order placed successfully" ∧
    getStatusMessage "packed" = .text "Order has been packed" ∧
    getStatusMessage "shipped" = .text "Order is on the way" ∧
    getStatusMessage "delivered" = .text "Order delivered successfully" ∧
    getStatusMessage "cancelled" = .text "Order has been cancelled" :=
  ⟨rfl, rfl, rfl, rfl, rfl⟩

/-- A status that is not a key of the table and not a name inherited from
`Object.prototype` gets the message `Status updated`. -/
theorem getStatusMessage_fallback (status : String)
    (hkey : status ∉ ["pending", "packed", "shipped", "delivered", "cancelled"])
    (hproto : status ∉ objectPrototypeMembers) :
    getStatusMessage status = .text "Status updated" := by
  simp only [List.mem_cons, List.mem_singleton, not_or, List.not_mem_nil, or_false] at hkey
  obtain ⟨h1, h2, h3, h4, h5⟩ := hkey
  have e1 : (status == "pending") = false := by simpa using h1
  have e2 : (status == "packed") = false := by simpa using h2
  have e3 : (status == "shipped") = false := by simpa using h3
  have e4 : (status == "delivered") = false := by simpa using h4
  have e5 : (status == "cancelled") = false := by simpa using h5
  have hlookup : messages.lookup status = none := by
    simp only [messages, List.lookup, e1, e2, e3, e4, e5]
  simp [getStatusMessage, messagesAt, hlookup, hproto]

/-- C9, at the failing input: the status `constructor` is none of the five of
the table, and `messages['constructor']` is the member the object literal
inherits from `Object.prototype`, which is truthy; the entry appended to the
history carries that member as its message, not the text `Status updated`. -/
theorem updateOrderStatus_inherited_member_message :
    "constructor" ∉ ["pending", "packed", "shipped", "delivered", "cancelled"] ∧
    getOrders (withOrders [sampleOrder "ORD-1" "pending"]) =
      .ok [sampleOrder "ORD-1" "pending"] ∧
    (updateOrderStatus (withOrders [sampleOrder "ORD-1" "pending"]) "ORD-1" "constructor"
        "2024-01-02T00:00:00.000Z").1 =
      .ok [{ sampleOrder "ORD-1" "constructor" with
             statusHistory := (sampleOrder "ORD-1" "pending").statusHistory ++
               [{ status := "constructor", date := "2024-01-02T00:00:00.000Z",
                  message := .inherited "constructor" }] }] ∧
    getStatusMessage "constructor" ≠ .text "Status updated" :=
  ⟨by decide, rfl, rfl, by decide⟩

/-- An order that is read from storage is a JSON value: writing and reading it
again gives the same order. -/
theorem toJSON_of_getOrders (ls : LocalStorage) (orders : List Order) (i : Nat)
    (order : Order) (ho : getOrders ls = .ok orders) (hi : orders[i]? = some order) :
    order.toJSON = order := by
  have hfix := congrArg (fun os : List Order => os[i]?) (getOrders_toJSON ls orders ho)
  simp only [List.getElem?_map, hi, Option.map_some'] at hfix
  exact Option.some.inj hfix

/-- C10: `updateOrderStatus` changes nothing of an order except `status` and
`statusHistory`.  When no order has the id, the list is returned as it is and
the storage is untouched.  When `old`, at index `i`, is the first order with
the id, the call returns a list and persists what JSON keeps of that list
(the two differ only when the new message is not a string); each of the two has
the length of the list before, the same order at every other index, and at
index `i` an order with the `id`, `items`, `total`, `orderDate` and
`shippingAddress` of `old` whose `statusHistory` is that of `old` followed by
one entry. -/
theorem updateOrderStatus_frame (ls : LocalStorage) (orders : List Order)
    (orderId newStatus now : String) (ho : getOrders ls = .ok orders) :
    ((∀ order ∈ orders, order.id ≠ orderId) →
      updateOrderStatus ls orderId newStatus now = (.ok orders, ls)) ∧
    (∀ (i : Nat) (old : Order), orders[i]? = some old → old.id = orderId →
      (∀ j other, j < i → orders[j]? = some other → other.id ≠ orderId) →
      ∃ returned persisted,
        (updateOrderStatus ls orderId newStatus now).1 = .ok returned ∧
        getOrders (updateOrderStatus ls orderId newStatus now).2 = .ok persisted ∧
        persisted = returned.map Order.toJSON ∧
        ∀ result, result = returned ∨ result = persisted →
          result.length = orders.length ∧
          (∀ j, j ≠ i → result[j]? = orders[j]?) ∧
          ∃ new, result[i]? = some new ∧ new.id = old.id ∧ new.items = old.items ∧
            new.total = old.total ∧ new.orderDate = old.orderDate ∧
            new.shippingAddress = old.shippingAddress ∧
            ∃ entry, new.statusHistory = old.statusHistory ++ [entry]) := by
  constructor
  · intro hnone
    apply updateOrderStatus_not_found ls orders orderId newStatus now ho
    rw [findIndex_eq_none_iff]
    intro order horder
    simpa using hnone order horder
  · intro i old hold hid hfirst
    have hi : findIndex (fun order => order.id == orderId) orders = some i :=
      findIndex_of_first _ orders i old hold (by simpa using hid)
        (fun j other hj hother => by simpa using hfirst j other hj hother)
    obtain ⟨h1, h2⟩ := updateOrderStatus_found ls orders orderId newStatus now i ho hi
    have hold' : old.statusHistory.map StatusEntry.toJSON = old.statusHistory :=
      congrArg Order.statusHistory (toJSON_of_getOrders ls orders i old ho hold)
    refine ⟨_, _, h1, h2,
      (map_modifyAt_of_fixed Order.toJSON _ orders i (getOrders_toJSON ls orders ho)).symm, ?_⟩
    rintro result (rfl | rfl)
    · refine ⟨length_modifyAt _ _ _, ?_, ?_⟩
      · intro j hj
        rw [getElem?_modifyAt, if_neg hj]
      · refine ⟨{ old with
            status := newStatus,
            statusHistory := old.statusHistory ++
              [{ status := newStatus, date := now, message := getStatusMessage newStatus }] },
          ?_, rfl, rfl, rfl, rfl, rfl, _, rfl⟩
        rw [getElem?_modifyAt, if_pos rfl, hold]
        rfl
    · refine ⟨length_modifyAt _ _ _, ?_, ?_⟩
      · intro j hj
        rw [getElem?_modifyAt, if_neg hj]
      · refine ⟨Order.toJSON { old with
            status := newStatus,
            statusHistory := old.statusHistory ++
              [{ status := newStatus, date := now, message := getStatusMessage newStatus }] },
          ?_, rfl, rfl, rfl, rfl, rfl,
          StatusEntry.toJSON
            { status := newStatus, date := now, message := getStatusMessage newStatus }, ?_⟩
        · rw [getElem?_modifyAt, if_pos rfl, hold]
          rfl
        · simp [Order.toJSON, hold']

theorem updateOrderStatus_frame_witness :
    updateOrderStatus (withOrders [sampleOrder "ORD-1" "pending", sampleOrder "ORD-2" "packed"])
        "ORD-9" "shipped" "2024-01-02T00:00:00.000Z" =
      (.ok [sampleOrder "ORD-1" "pending", sampleOrder "ORD-2" "packed"],
       withOrders [sampleOrder "ORD-1" "pending", sampleOrder "ORD-2" "packed"]) ∧
    ∃ returned persisted,
      (updateOrderStatus
        (withOrders [sampleOrder "ORD-1" "pending", sampleOrder "ORD-2" "packed"])
        "ORD-2" "constructor" "2024-01-02T00:00:00.000Z").1 = .ok returned ∧
      getOrders (updateOrderStatus
        (withOrders [sampleOrder "ORD-1" "pending", sampleOrder "ORD-2" "packed"])
        "ORD-2" "constructor" "2024-01-02T00:00:00.000Z").2 = .ok persisted ∧
      persisted = returned.map Order.toJSON ∧
      ∀ result, result = returned ∨ result = persisted →
        result.length = [sampleOrder "ORD-1" "pending", sampleOrder "ORD-2" "packed"].length ∧
        (∀ j, j ≠ 1 → result[j]? =
          [sampleOrder "ORD-1" "pending", sampleOrder "ORD-2" "packed"][j]?) ∧
        ∃ new, result[1]? = some new ∧ new.id = (sampleOrder "ORD-2" "packed").id ∧
          new.items = (sampleOrder "ORD-2" "packed").items ∧
          new.total = (sampleOrder "ORD-2" "packed").total ∧
          new.orderDate = (sampleOrder "ORD-2" "packed").orderDate ∧
          new.shippingAddress = (sampleOrder "ORD-2" "packed").shippingAddress ∧
          ∃ entry,
            new.statusHistory = (sampleOrder "ORD-2" "packed").statusHistory ++ [entry] :=
  ⟨(updateOrderStatus_frame
      (withOrders [sampleOrder "ORD-1" "pending", sampleOrder "ORD-2" "packed"])
      [sampleOrder "ORD-1" "pending", sampleOrder "ORD-2" "packed"]
      "ORD-9" "shipped" "2024-01-02T00:00:00.000Z" rfl).1 (by decide),
   (updateOrderStatus_frame
      (withOrders [sampleOrder "ORD-1" "pending", sampleOrder "ORD-2" "packed"])
      [sampleOrder "ORD-1" "pending", sampleOrder "ORD-2" "packed"]
      "ORD-2" "constructor" "2024-01-02T00:00:00.000Z" rfl).2 1 (sampleOrder "ORD-2" "packed")
      rfl rfl
      (by
        intro j other hj hother
        have hj0 : j = 0 := by omega
        subst hj0
        have hfirst : sampleOrder "ORD-1" "pending" = other := Option.some.inj hother
        subst hfirst
        decide)⟩

/-- After `updateOrderStatus(id, 'constructor')` the list returned carries the
inherited member as the message of the new entry, and the list read back from
storage carries no message there: `JSON.stringify` left the function out. -/
theorem updateOrderStatus_inherited_member_persisted :
    getOrders (updateOrderStatus (withOrders [sampleOrder "ORD-1" "pending"]) "ORD-1"
        "constructor" "2024-01-02T00:00:00.000Z").2 =
      .ok [{ sampleOrder "ORD-1" "constructor" with
             statusHistory := (sampleOrder "ORD-1" "pending").statusHistory ++
               [{ status := "constructor", date := "2024-01-02T00:00:00.000Z",
                  message := .undefined }] }] :=
  rfl

/-! ## Creating an order -/

/-- What `createOrder` does when the orders of the storage can be read: it
returns the new order, and the storage it leaves is the one `saveOrders` left,
without the cart entry. -/
theorem createOrder_returns (ls : LocalStorage) (prev : List Order)
    (cartItems : List CartItem) (total : JsValue) (nowMs : Nat)
    (orderDate historyDate : String) (hprev : getOrders ls = .ok prev) :
    (createOrder ls cartItems total nowMs orderDate historyDate).1 =
      .ok { id := "ORD-" ++ toString nowMs, items := cartItems, total := total,
            status := "pending", orderDate := orderDate,
            statusHistory := [{ status := "pending", date := historyDate,
                                message := .text "Order placed successfully" }],
            shippingAddress := none } ∧
    (createOrder ls cartItems total nowMs orderDate historyDate).2.cart = none := by
  unfold getOrders at hprev
  unfold createOrder getOrders saveOrders
  cases hcu : ls.currentUser with
  | none => simp [clearCart]
  | some currentUser =>
    rw [hcu] at hprev
    cases currentUser with
    | empty => simp [Text.truthy, clearCart]
    | invalid raw => simp [Text.truthy, JSON.parse] at hprev
    | json user =>
      simp only [Text.truthy, JSON.parse] at hprev ⊢
      simp only [Bool.not_true, Bool.false_eq_true, if_false] at hprev ⊢
      rw [hprev]
      simp [clearCart]

/-- C11, refuted as stated: a session is active, the text stored for the
user's orders is not valid JSON and the cart holds one line.  `createOrder`
throws the `SyntaxError` of `getOrders` before it reaches `clearCart`, and
`getCart` still returns the line afterwards. -/
theorem createOrder_throws_and_keeps_cart :
    (createOrder { signedIn with
        cart := some (.json [phoneLine]),
        orders := fun _ => some (.invalid "not json") }
      [phoneLine] (.number 57000) 1704067200000 "2024-01-01T00:00:00.000Z"
      "2024-01-01T00:00:00.000Z").1 = .error .syntaxError ∧
    getCart (createOrder { signedIn with
        cart := some (.json [phoneLine]),
        orders := fun _ => some (.invalid "not json") }
      [phoneLine] (.number 57000) 1704067200000 "2024-01-01T00:00:00.000Z"
      "2024-01-01T00:00:00.000Z").2 = .ok [phoneLine] :=
  ⟨rfl, rfl⟩

/-- C11, amended: for every storage whose orders can be read (`getOrders` does
not throw), with or without an active session, `createOrder` returns and
`getCart` called afterwards returns the empty sequence. -/
theorem getCart_after_createOrder (ls : LocalStorage) (prev : List Order)
    (cartItems : List CartItem) (total : JsValue) (nowMs : Nat)
    (orderDate historyDate : String) (hprev : getOrders ls = .ok prev) :
    (∃ newOrder,
      (createOrder ls cartItems total nowMs orderDate historyDate).1 = .ok newOrder) ∧
    getCart (createOrder ls cartItems total nowMs orderDate historyDate).2 = .ok [] := by
  obtain ⟨hret, hcart⟩ :=
    createOrder_returns ls prev cartItems total nowMs orderDate historyDate hprev
  exact ⟨⟨_, hret⟩, by simp [getCart, hcart]⟩

theorem getCart_after_createOrder_witness :
    ((∃ newOrder,
        (createOrder (withCart [phoneLine]) [phoneLine] (.number 57000) 1704067200000
          "2024-01-01T00:00:00.000Z" "2024-01-01T00:00:00.000Z").1 = .ok newOrder) ∧
      getCart (createOrder (withCart [phoneLine]) [phoneLine] (.number 57000) 1704067200000
        "2024-01-01T00:00:00.000Z" "2024-01-01T00:00:00.000Z").2 = .ok []) ∧
    ((∃ newOrder,
        (createOrder { signedIn with cart := some (.json [phoneLine]) } [phoneLine]
          (.number 57000) 1704067200000 "2024-01-01T00:00:00.000Z"
          "2024-01-01T00:00:00.000Z").1 = .ok newOrder) ∧
      getCart (createOrder { signedIn with cart := some (.json [phoneLine]) } [phoneLine]
        (.number 57000) 1704067200000 "2024-01-01T00:00:00.000Z"
        "2024-01-01T00:00:00.000Z").2 = .ok []) :=
  ⟨getCart_after_createOrder (withCart [phoneLine]) [] [phoneLine] (.number 57000)
      1704067200000 "2024-01-01T00:00:00.000Z" "2024-01-01T00:00:00.000Z" rfl,
   getCart_after_createOrder { signedIn with cart := some (.json [phoneLine]) } []
      [phoneLine] (.number 57000) 1704067200000 "2024-01-01T00:00:00.000Z"
      "2024-01-01T00:00:00.000Z" rfl⟩

/-- C12: whenever the orders of the storage can be read, `createOrder` returns
an order, and the order it returns has status `pending`, the items and the
total it was given, an id made of `ORD-` followed by the digits of the clock,
and a history of exactly one entry, of status `pending` and message
`Order placed successfully`. -/
theorem createOrder_new_order (ls : LocalStorage) (prev : List Order)
    (cartItems : List CartItem) (total : JsValue) (nowMs : Nat)
    (orderDate historyDate : String) (hprev : getOrders ls = .ok prev) :
    ∃ newOrder,
      (createOrder ls cartItems total nowMs orderDate historyDate).1 = .ok newOrder ∧
      newOrder.status = "pending" ∧
      newOrder.items = cartItems ∧
      newOrder.total = total ∧
      newOrder.id = "ORD-" ++ toString nowMs ∧
      ∃ entry, newOrder.statusHistory = [entry] ∧ entry.status = "pending" ∧
        entry.message = .text "Order placed successfully" :=
  ⟨_, (createOrder_returns ls prev cartItems total nowMs orderDate historyDate hprev).1,
    rfl, rfl, rfl, rfl, _, rfl, rfl, rfl⟩

theorem createOrder_new_order_witness :
    ∃ newOrder,
      (createOrder (withOrders [sampleOrder "ORD-1" "shipped"]) [phoneLine] (.number 57000)
        1704067200000 "2024-01-01T00:00:00.000Z" "2024-01-01T00:00:00.000Z").1 =
        .ok newOrder ∧
      newOrder.status = "pending" ∧
      newOrder.items = [phoneLine] ∧
      newOrder.total = .number 57000 ∧
      newOrder.id = "ORD-" ++ toString 1704067200000 ∧
      ∃ entry, newOrder.statusHistory = [entry] ∧ entry.status = "pending" ∧
        entry.message = .text "Order placed successfully" :=
  createOrder_new_order (withOrders [sampleOrder "ORD-1" "shipped"])
    [sampleOrder "ORD-1" "shipped"] [phoneLine] (.number 57000) 1704067200000
    "2024-01-01T00:00:00.000Z" "2024-01-01T00:00:00.000Z" rfl

/-! ## The cart: two colors, and setting a quantity -/

/-- C13: the cart has no line of either product, and the two products have
different colors (whatever their ids and sizes, the same id and the same size
included).  Adding the first and then the second returns and persists the cart
followed by two new lines, which are distinct, carry the ids and colors of the
two products and have quantity 1 each. -/
theorem addToCart_two_colors (ls : LocalStorage) (cart : List CartItem) (p1 p2 : Product)
    (t1 t2 : String) (hcart : getCart ls = .ok cart) (hcolor : p1.color ≠ p2.color)
    (h1 : ∀ item ∈ cart, sameLine p1 item = false)
    (h2 : ∀ item ∈ cart, sameLine p2 item = false) :
    ∃ line1 line2,
      (addToCart (addToCart ls p1 t1).2 p2 t2).1 = .ok (cart ++ [line1, line2]) ∧
      getCart (addToCart (addToCart ls p1 t1).2 p2 t2).2 = .ok (cart ++ [line1, line2]) ∧
      line1 ≠ line2 ∧
      line1.id = p1.id ∧ line1.color = p1.color ∧ line1.quantity = 1 ∧
      line2.id = p2.id ∧ line2.color = p2.color ∧ line2.quantity = 1 := by
  have hnew1 : findIndex (sameLine p1) cart = none :=
    (findIndex_eq_none_iff _ _).mpr h1
  rw [addToCart_new_line ls cart p1 t1 hcart hnew1]
  have hnew2 : findIndex (sameLine p2)
      (cart ++ [{ id := p1.id, name := p1.name, price := p1.price, image := p1.image,
                  color := p1.color, size := p1.size.or .null, quantity := 1,
                  addedAt := t1 }]) = none := by
    rw [findIndex_eq_none_iff]
    intro item hitem
    rcases List.mem_append.mp hitem with hmem | hmem
    · exact h2 item hmem
    · rw [List.mem_singleton] at hmem
      subst hmem
      simp [sameLine, hcolor]
  rw [addToCart_new_line _ _ p2 t2 (getCart_saveCart _ _) hnew2]
  refine ⟨{ id := p1.id, name := p1.name, price := p1.price, image := p1.image,
             color := p1.color, size := p1.size.or .null, quantity := 1, addedAt := t1 },
    { id := p2.id, name := p2.name, price := p2.price, image := p2.image,
      color := p2.color, size := p2.size.or .null, quantity := 1, addedAt := t2 },
    by simp, by simp [getCart_saveCart], ?_, rfl, rfl, rfl, rfl, rfl, rfl⟩
  intro heq
  exact hcolor (congrArg CartItem.color heq)

theorem addToCart_two_colors_witness :
    ∃ line1 line2,
      (addToCart (addToCart emptyStorage phoneNoSize "t1").2
        { phoneNoSize with color := .string "Silver" } "t2").1 = .ok ([] ++ [line1, line2]) ∧
      getCart (addToCart (addToCart emptyStorage phoneNoSize "t1").2
        { phoneNoSize with color := .string "Silver" } "t2").2 =
          .ok ([] ++ [line1, line2]) ∧
      line1 ≠ line2 ∧
      line1.id = phoneNoSize.id ∧ line1.color = phoneNoSize.color ∧ line1.quantity = 1 ∧
      line2.id = ({ phoneNoSize with color := .string "Silver" } : Product).id ∧
      line2.color = ({ phoneNoSize with color := .string "Silver" } : Product).color ∧
      line2.quantity = 1 :=
  addToCart_two_colors emptyStorage [] phoneNoSize { phoneNoSize with color := .string "Silver" }
    "t1" "t2" rfl (by decide) (by simp) (by simp)

/-- C14: for a valid index `i` and a quantity `q > 0`, `updateCartQuantity(i, q)`
raises no error and returns and persists a cart of the same length, with the
same line at every other index and, at index `i`, the line that was there with
its quantity set to `q` and its other fields as they were. -/
theorem updateCartQuantity_positive_sets (ls : LocalStorage) (cart : List CartItem)
    (i q : Int) (hcart : getCart ls = .ok cart) (hi0 : 0 ≤ i) (hi : i < cart.length)
    (hq : 0 < q) :
    ∃ cart',
      (updateCartQuantity ls i q).1 = .ok cart' ∧
      getCart (updateCartQuantity ls i q).2 = .ok cart' ∧
      cart'.length = cart.length ∧
      (∀ j, j ≠ i.toNat → cart'[j]? = cart[j]?) ∧
      ∃ old, cart[i.toNat]? = some old ∧
        cart'[i.toNat]? = some { old with quantity := q } := by
  have hq' : ¬ q ≤ 0 := by omega
  have hlt : i.toNat < cart.length := by omega
  refine ⟨modifyAt (fun item => { item with quantity := q }) cart i.toNat, ?_, ?_,
    length_modifyAt _ _ _, ?_, cart[i.toNat], ?_, ?_⟩
  · simp [updateCartQuantity, hcart, hq', hi0, hi]
  · simp [updateCartQuantity, hcart, hq', hi0, hi, getCart_saveCart]
  · intro j hj
    rw [getElem?_modifyAt, if_neg hj]
  · exact List.getElem?_eq_getElem hlt
  · rw [getElem?_modifyAt, if_pos rfl, List.getElem?_eq_getElem hlt]
    rfl

theorem updateCartQuantity_positive_sets_witness :
    ∃ cart',
      (updateCartQuantity (withCart [phoneLine, phoneLineSilver]) 1 3).1 = .ok cart' ∧
      getCart (updateCartQuantity (withCart [phoneLine, phoneLineSilver]) 1 3).2 = .ok cart' ∧
      cart'.length = [phoneLine, phoneLineSilver].length ∧
      (∀ j, j ≠ (1 : Int).toNat → cart'[j]? = [phoneLine, phoneLineSilver][j]?) ∧
      ∃ old, [phoneLine, phoneLineSilver][(1 : Int).toNat]? = some old ∧
        cart'[(1 : Int).toNat]? = some { old with quantity := 3 } :=
  updateCartQuantity_positive_sets (withCart [phoneLine, phoneLineSilver])
    [phoneLine, phoneLineSilver] 1 3 rfl (by decide) (by decide) (by decide)

/-! ## Favorites: reading and writing under a session -/

theorem getFavorites_of_session (ls : LocalStorage) (user : User)
    (hs : activeSession ls user) :
    getFavorites ls =
      match ls.favorites user.id.render with
      | none => .ok []
      | some favorites => if favorites.truthy then JSON.parse favorites else .ok [] := by
  unfold activeSession at hs
  simp [getFavorites, hs, Text.truthy, JSON.parse]

theorem saveFavorites_of_session (ls : LocalStorage) (user : User)
    (favorites : List Favorite) (hs : activeSession ls user) :
    saveFavorites ls favorites =
      (.ok (), { ls with favorites := fun key =>
        if key = user.id.render then some (JSON.stringify favorites) else ls.favorites key }) := by
  unfold activeSession at hs
  simp [saveFavorites, hs, Text.truthy, JSON.parse]

/-- Under a session, `saveFavorites` keeps the session and reading the
favorites back gives what was saved. -/
theorem getFavorites_saveFavorites (ls : LocalStorage) (user : User)
    (favorites : List Favorite) (hs : activeSession ls user) :
    activeSession (saveFavorites ls favorites).2 user ∧
    getFavorites (saveFavorites ls favorites).2 = .ok favorites := by
  rw [saveFavorites_of_session ls user favorites hs]
  have hs' : activeSession { ls with favorites := fun key =>
      if key = user.id.render then some (JSON.stringify favorites) else ls.favorites key }
      user := hs
  refine ⟨hs', ?_⟩
  rw [getFavorites_of_session _ user hs']
  simp [JSON.stringify, JSON.parse, Text.truthy]

/-- What `toggleFavorite` does under a session: the list it returns is the one
it persists, the favorites without the first entry of the product's id when
there is one, and followed by a new entry otherwise. -/
theorem toggleFavorite_of_session (ls : LocalStorage) (user : User)
    (favorites : List Favorite) (p : Product) (now : String)
    (hs : activeSession ls user) (hfav : getFavorites ls = .ok favorites) :
    (toggleFavorite ls p now).1 =
      .ok (match findIndex (fun item => item.id == p.id) favorites with
        | some existingIndex => favorites.eraseIdx existingIndex
        | none => favorites ++ [{ id := p.id, name := p.name, price := p.price,
                                  image := p.image, addedAt := now }]) ∧
    activeSession (toggleFavorite ls p now).2 user ∧
    getFavorites (toggleFavorite ls p now).2 =
      .ok (match findIndex (fun item => item.id == p.id) favorites with
        | some existingIndex => favorites.eraseIdx existingIndex
        | none => favorites ++ [{ id := p.id, name := p.name, price := p.price,
                                  image := p.image, addedAt := now }]) := by
  have hsave := getFavorites_saveFavorites ls user
    (match findIndex (fun item => item.id == p.id) favorites with
      | some existingIndex => favorites.eraseIdx existingIndex
      | none => favorites ++ [{ id := p.id, name := p.name, price := p.price,
                                image := p.image, addedAt := now }]) hs
  rw [saveFavorites_of_session ls user _ hs] at hsave
  simp only [toggleFavorite, hfav, saveFavorites_of_session ls user _ hs]
  exact ⟨trivial, hsave.1, hsave.2⟩

/-- In a list with pairwise distinct keys, erasing at the index `findIndex`
returns for a key removes every element of that key. -/
theorem eraseIdx_findIndex_eq_filter {α β : Type} [DecidableEq β] (key : α → β) (x : β) :
    ∀ (xs : List α) (i : Nat), (xs.map key).Nodup →
      findIndex (fun a => key a == x) xs = some i →
      xs.eraseIdx i = xs.filter (fun a => key a != x) := by
  intro xs
  induction xs with
  | nil => intro i _ h; simp [findIndex] at h
  | cons a as ih =>
    intro i hnodup hi
    rw [List.map_cons, List.nodup_cons] at hnodup
    obtain ⟨hfresh, hrest⟩ := hnodup
    by_cases ha : key a = x
    · simp [findIndex, ha] at hi
      subst hi
      simp only [List.eraseIdx_cons_zero]
      rw [List.filter_cons_of_neg (by simp [ha])]
      symm
      rw [List.filter_eq_self]
      intro b hb
      have hne : key b ≠ x := by
        intro hbx
        exact hfresh (List.mem_map.mpr ⟨b, hb, hbx.trans ha.symm⟩)
      simpa using hne
    · simp [findIndex, ha] at hi
      obtain ⟨j, hj, rfl⟩ := hi
      rw [List.eraseIdx_cons_succ, List.filter_cons_of_pos (by simpa using ha), ih j hrest hj]

/-- The entry `toggleFavorite` looks for exists exactly when the id is among the ids. -/
theorem findIndex_id_eq_none_iff (favorites : List Favorite) (id : JsValue) :
    findIndex (fun item => item.id == id) favorites = none ↔
      id ∉ favorites.map Favorite.id := by
  rw [findIndex_eq_none_iff]
  constructor
  · intro h hmem
    obtain ⟨item, hitem, hid⟩ := List.mem_map.mp hmem
    have := h item hitem
    simp [hid] at this
  · intro h item hitem
    have hne : item.id ≠ id := fun hid => h (List.mem_map.mpr ⟨item, hitem, hid⟩)
    simpa using hne

/-! ## Favorites -/

/-- C15: under a session, on a favorites list with at most one entry per
product id, `toggleFavorite(p)` returns and persists the list without the
entry of `p.id` when there is one, and the list followed by one entry for `p`
otherwise; `isFavorite(p.id)` afterwards is the negation of its value before;
the entries of the other ids are the same, in the same order; the list still
has at most one entry per id; and after a second `toggleFavorite(p)` the ids of
the favorites are those of the original list. -/
theorem toggleFavorite_symmetric_difference (ls : LocalStorage) (user : User)
    (favorites : List Favorite) (p : Product) (now now2 : String)
    (hs : activeSession ls user) (hfav : getFavorites ls = .ok favorites)
    (huniq : uniqueFavoriteIds favorites) :
    ∃ after,
      (toggleFavorite ls p now).1 = .ok after ∧
      getFavorites (toggleFavorite ls p now).2 = .ok after ∧
      (p.id ∈ favorites.map Favorite.id →
        after = favorites.filter (fun item => item.id != p.id)) ∧
      (p.id ∉ favorites.map Favorite.id →
        after = favorites ++ [{ id := p.id, name := p.name, price := p.price,
                                image := p.image, addedAt := now }]) ∧
      (∃ before, isFavorite ls p.id = .ok before ∧
        isFavorite (toggleFavorite ls p now).2 p.id = .ok (!before)) ∧
      after.filter (fun item => item.id != p.id) =
        favorites.filter (fun item => item.id != p.id) ∧
      uniqueFavoriteIds after ∧
      ∃ again,
        getFavorites (toggleFavorite (toggleFavorite ls p now).2 p now2).2 = .ok again ∧
        ∀ id, id ∈ again.map Favorite.id ↔ id ∈ favorites.map Favorite.id := by
  obtain ⟨hret, hs', hget⟩ := toggleFavorite_of_session ls user favorites p now hs hfav
  cases hi : findIndex (fun item : Favorite => item.id == p.id) favorites with
  | some i =>
    rw [hi] at hret hget
    simp only at hret hget
    have hmem : p.id ∈ favorites.map Favorite.id := by
      by_contra hnot
      rw [(findIndex_id_eq_none_iff favorites p.id).mpr hnot] at hi
      cases hi
    have herase : favorites.eraseIdx i = favorites.filter (fun item => item.id != p.id) :=
      eraseIdx_findIndex_eq_filter Favorite.id p.id favorites i huniq hi
    rw [herase] at hret hget
    have hgone : findIndex (fun item : Favorite => item.id == p.id)
        (favorites.filter (fun item => item.id != p.id)) = none := by
      rw [findIndex_eq_none_iff]
      intro item hitem
      have := (List.mem_filter.mp hitem).2
      simpa using this
    obtain ⟨_, _, hget2⟩ := toggleFavorite_of_session _ user _ p now2 hs' hget
    rw [hgone] at hget2
    simp only at hget2
    refine ⟨_, hret, hget, fun _ => rfl, fun hnot => absurd hmem hnot, ?_, ?_, ?_, _, hget2, ?_⟩
    · refine ⟨true, ?_, ?_⟩
      · simp only [isFavorite, hfav]
        congr 1
        rw [List.any_eq_true]
        obtain ⟨item, hitem, hid⟩ := List.mem_map.mp hmem
        exact ⟨item, hitem, by simpa using hid⟩
      · simp only [isFavorite, hget]
        congr 1
        simp [List.any_eq_false, List.mem_filter]
    · rw [List.filter_filter]
      congr 1
      funext item
      simp
    · exact List.Nodup.sublist ((List.filter_sublist favorites).map Favorite.id) huniq
    · intro id
      simp only [List.map_append, List.map_cons, List.map_nil, List.mem_append,
        List.mem_singleton, List.mem_map, List.mem_filter]
      constructor
      · rintro (⟨item, ⟨hitem, _⟩, rfl⟩ | rfl)
        · exact ⟨item, hitem, rfl⟩
        · exact List.mem_map.mp hmem
      · rintro ⟨item, hitem, rfl⟩
        by_cases hid : item.id = p.id
        · exact Or.inr hid
        · exact Or.inl ⟨item, ⟨hitem, by simpa using hid⟩, rfl⟩
  | none =>
    rw [hi] at hret hget
    simp only at hret hget
    have hnot : p.id ∉ favorites.map Favorite.id := (findIndex_id_eq_none_iff favorites p.id).mp hi
    have hback : findIndex (fun item : Favorite => item.id == p.id)
        (favorites ++ [{ id := p.id, name := p.name, price := p.price, image := p.image,
                         addedAt := now }]) = some favorites.length :=
      findIndex_append_singleton _ favorites _ hi (by simp)
    obtain ⟨_, _, hget2⟩ := toggleFavorite_of_session _ user _ p now2 hs' hget
    rw [hback] at hget2
    simp only at hget2
    have hsame : ∀ entry : Favorite,
        (favorites ++ [entry]).eraseIdx favorites.length = favorites := by
      intro entry
      rw [List.eraseIdx_append_of_length_le (le_refl _)]
      simp
    rw [hsame] at hget2
    refine ⟨_, hret, hget, fun hmem => absurd hmem hnot, fun _ => rfl, ?_, ?_, ?_, _, hget2,
      fun _ => Iff.rfl⟩
    · refine ⟨false, ?_, ?_⟩
      · simp only [isFavorite, hfav]
        congr 1
        rw [List.any_eq_false]
        intro item hitem
        have := (findIndex_eq_none_iff _ _).mp hi item hitem
        simpa using this
      · simp only [isFavorite, hget]
        congr 1
        simp
    · rw [List.filter_append]
      simp
    · unfold uniqueFavoriteIds at huniq ⊢
      rw [List.map_append, List.nodup_append]
      refine ⟨huniq, by simp, ?_⟩
      intro id hid hid'
      simp only [List.map_cons, List.map_nil, List.mem_singleton] at hid'
      subst hid'
      exact hnot hid

theorem toggleFavorite_symmetric_difference_witness :
    ∃ after,
      (toggleFavorite (withFavorites [sampleFavorite 1, sampleFavorite 2]) (sampleProduct 1)
        "t1").1 = .ok after ∧
      getFavorites (toggleFavorite (withFavorites [sampleFavorite 1, sampleFavorite 2])
        (sampleProduct 1) "t1").2 = .ok after ∧
      ((sampleProduct 1).id ∈ [sampleFavorite 1, sampleFavorite 2].map Favorite.id →
        after = [sampleFavorite 1, sampleFavorite 2].filter
          (fun item => item.id != (sampleProduct 1).id)) ∧
      ((sampleProduct 1).id ∉ [sampleFavorite 1, sampleFavorite 2].map Favorite.id →
        after = [sampleFavorite 1, sampleFavorite 2] ++
          [{ id := (sampleProduct 1).id, name := (sampleProduct 1).name,
             price := (sampleProduct 1).price, image := (sampleProduct 1).image,
             addedAt := "t1" }]) ∧
      (∃ before,
        isFavorite (withFavorites [sampleFavorite 1, sampleFavorite 2]) (sampleProduct 1).id =
          .ok before ∧
        isFavorite (toggleFavorite (withFavorites [sampleFavorite 1, sampleFavorite 2])
          (sampleProduct 1) "t1").2 (sampleProduct 1).id = .ok (!before)) ∧
      after.filter (fun item => item.id != (sampleProduct 1).id) =
        [sampleFavorite 1, sampleFavorite 2].filter
          (fun item => item.id != (sampleProduct 1).id) ∧
      uniqueFavoriteIds after ∧
      ∃ again,
        getFavorites (toggleFavorite
          (toggleFavorite (withFavorites [sampleFavorite 1, sampleFavorite 2])
            (sampleProduct 1) "t1").2 (sampleProduct 1) "t2").2 = .ok again ∧
        ∀ id, id ∈ again.map Favorite.id ↔
          id ∈ [sampleFavorite 1, sampleFavorite 2].map Favorite.id :=
  toggleFavorite_symmetric_difference (withFavorites [sampleFavorite 1, sampleFavorite 2])
    { id := .string "u1" } [sampleFavorite 1, sampleFavorite 2] (sampleProduct 1) "t1" "t2"
    rfl rfl (by decide)

/-- C16: when no current-user session is stored, `getFavorites` returns the
empty list, and `toggleFavorite(p)` raises no error (it returns the one-entry
list it built in memory) and leaves the storage exactly as it was. -/
theorem toggleFavorite_without_session (ls : LocalStorage) (p : Product) (now : String)
    (hnone : ls.currentUser = none) :
    getFavorites ls = .ok [] ∧
    (toggleFavorite ls p now).1 =
      .ok [{ id := p.id, name := p.name, price := p.price, image := p.image,
             addedAt := now }] ∧
    (toggleFavorite ls p now).2 = ls := by
  have hget : getFavorites ls = .ok [] := by simp [getFavorites, hnone]
  refine ⟨hget, ?_, ?_⟩ <;> simp [toggleFavorite, hget, findIndex, saveFavorites, hnone]

theorem toggleFavorite_without_session_witness :
    getFavorites (withCart [phoneLine]) = .ok [] ∧
    (toggleFavorite (withCart [phoneLine]) (sampleProduct 1) "t1").1 =
      .ok [{ id := (sampleProduct 1).id, name := (sampleProduct 1).name,
             price := (sampleProduct 1).price, image := (sampleProduct 1).image,
             addedAt := "t1" }] ∧
    (toggleFavorite (withCart [phoneLine]) (sampleProduct 1) "t1").2 = withCart [phoneLine] :=
  toggleFavorite_without_session (withCart [phoneLine]) (sampleProduct 1) "t1" rfl

/-! ## The catalog -/

theorem mem_of_lookup {β : Type} (key : String) (value : β) :
    ∀ (table : List (String × β)), table.lookup key = some value → (key, value) ∈ table := by
  intro table
  induction table with
  | nil => intro h; simp at h
  | cons item rest ih =>
    intro h
    obtain ⟨k, v⟩ := item
    rw [List.lookup_cons] at h
    by_cases hk : key = k
    · subst hk
      simp at h
      subst h
      exact List.mem_cons_self _ _
    · have hb : (key == k) = false := by simpa using hk
      rw [hb] at h
      exact List.mem_cons_of_mem _ (ih h)

set_option maxRecDepth 100000 in
/-- Every entry of the catalog passes the check `priced`. -/
theorem catalog_priced : ∀ item ∈ ProductVariants, item.2.priced = true := by
  decide

/-- What `priced` says of an entry with sizes. -/
theorem priced_sizes (e : VariantEntry) (sizes : List String) (hp : e.priced = true)
    (hsizes : e.sizes = some sizes) :
    ∃ prices, e.basePrices = some prices ∧
      ∀ size ∈ sizes, size ≠ "" ∧ ∃ price, prices.lookup size = some price ∧ price ≠ 0 := by
  unfold VariantEntry.priced at hp
  rw [hsizes] at hp
  cases hprices : e.basePrices with
  | none => simp [hprices] at hp
  | some prices =>
    refine ⟨prices, rfl, ?_⟩
    simp only [hprices, List.all_eq_true, Bool.and_eq_true] at hp
    intro size hsize
    obtain ⟨hne, hprice⟩ := hp size hsize
    refine ⟨by simpa using hne, ?_⟩
    cases hlookup : prices.lookup size with
    | none => simp [hlookup] at hprice
    | some price =>
      refine ⟨price, rfl, ?_⟩
      simpa [hlookup] using hprice

/-- What `priced` says of an entry without sizes. -/
theorem priced_no_sizes (e : VariantEntry) (hp : e.priced = true) (hsizes : e.sizes = none) :
    e.basePrices = none := by
  unfold VariantEntry.priced at hp
  rw [hsizes] at hp
  cases hprices : e.basePrices with
  | none => rfl
  | some prices => simp [hprices] at hp

/-- C19: every entry of `ProductVariants` whose `sizes` is present has
`basePrices`, and they hold a price for every size listed in `sizes`. -/
theorem catalog_basePrices_cover_sizes (name : String) (entry : VariantEntry)
    (sizes : List String) (hentry : (name, entry) ∈ ProductVariants)
    (hsizes : entry.sizes = some sizes) :
    ∃ prices, entry.basePrices = some prices ∧
      ∀ size ∈ sizes, ∃ price, prices.lookup size = some price := by
  obtain ⟨prices, hprices, hall⟩ :=
    priced_sizes entry sizes (catalog_priced (name, entry) hentry) hsizes
  refine ⟨prices, hprices, ?_⟩
  intro size hsize
  obtain ⟨_, price, hprice, _⟩ := hall size hsize
  exact ⟨price, hprice⟩

set_option maxRecDepth 100000 in
theorem catalog_basePrices_cover_sizes_witness :
    ∃ prices, iphoneEntry.basePrices = some prices ∧
      ∀ size ∈ ["128GB", "256GB", "512GB"], ∃ price, prices.lookup size = some price :=
  catalog_basePrices_cover_sizes "iPhone 14 Pro Max" iphoneEntry ["128GB", "256GB", "512GB"]
    (by decide) rfl

/-! ## The variant modal -/

/-- What `VariantModal.addToCart` does once a color is selected and the test on
sizes has passed: it hands a product to the store, whatever the price. -/
theorem variantModal_not_blocked (modal : VariantModal) (ls : LocalStorage) (now : String)
    (hcolor : selected modal.selectedColor = true)
    (hsize : modal.hasSizes = false ∨ selected modal.selectedSize = true) :
    (modal.addToCart ls now).called = true := by
  unfold VariantModal.hasSizes at hsize
  unfold VariantModal.addToCart
  cases hc : modal.selectedColor with
  | none => simp [selected, hc] at hcolor
  | some color =>
    have hne : color ≠ "" := by simpa [selected, hc] using hcolor
    have hgate : (((productVariantsAt modal.currentProduct.name.render).bind
        Variants.sizes).isSome && !selected modal.selectedSize) = false := by
      rcases hsize with h | h <;> simp [h]
    simp only [hne, if_false, hgate, Bool.false_eq_true]
    cases modal.finalPrice (productVariantsAt modal.currentProduct.name.render) <;> rfl

/-- C17, refuted as stated: the modal was just opened on `iPhone 14 Pro Max`,
whose entry has sizes, and neither a color nor a size is chosen.  The call is
blocked, and the error it reports is `Please select a color`, not
`Please select a size`. -/
theorem variantModal_reports_color_first :
    (openedOn iphone).hasSizes = true ∧
    (openedOn iphone).selectedSize = none ∧
    (openedOn iphone).addToCart emptyStorage "2024-01-01T00:00:00.000Z" =
      .blocked "Please select a color" ∧
    (openedOn iphone).addToCart emptyStorage "2024-01-01T00:00:00.000Z" ≠
      .blocked "Please select a size" := by
  refine ⟨by decide, rfl, rfl, ?_⟩
  intro h
  have hmsg : AddResult.blocked "Please select a color" =
      AddResult.blocked "Please select a size" := h
  exact absurd (AddResult.blocked.inj hmsg) (by decide)

/-- C17, amended: `VariantModal.addToCart` is blocked exactly when no color is
selected or the product's catalog entry has sizes and no size is selected
(`null`, or the empty string, which no radio carries, counts as not selected).
A blocked call reports an error, does not reach `StorageManager.addToCart` and
leaves the storage as it was.  With no color selected the error is
`Please select a color`; with a color selected, sizes in the entry and no size
selected it is `Please select a size`; a product whose entry has no sizes, or
that has no entry, is never blocked once a color is selected. -/
theorem variantModal_blocked_iff (modal : VariantModal) (ls : LocalStorage) (now : String) :
    ((∃ message, modal.addToCart ls now = .blocked message) ↔
      (selected modal.selectedColor = false ∨
        (modal.hasSizes = true ∧ selected modal.selectedSize = false))) ∧
    (∀ message, modal.addToCart ls now = .blocked message →
      (modal.addToCart ls now).called = false ∧
      (modal.addToCart ls now).storage ls = some ls) ∧
    (selected modal.selectedColor = false →
      modal.addToCart ls now = .blocked "Please select a color") ∧
    (selected modal.selectedColor = true → modal.hasSizes = true →
      selected modal.selectedSize = false →
      modal.addToCart ls now = .blocked "Please select a size") ∧
    (selected modal.selectedColor = true → modal.hasSizes = false →
      (modal.addToCart ls now).called = true) := by
  have hcolor : selected modal.selectedColor = false →
      modal.addToCart ls now = .blocked "Please select a color" := by
    intro h
    unfold VariantModal.addToCart
    cases hc : modal.selectedColor with
    | none => rfl
    | some color =>
      have he : color = "" := by simpa [selected, hc] using h
      simp [he]
  have hsize : selected modal.selectedColor = true → modal.hasSizes = true →
      selected modal.selectedSize = false →
      modal.addToCart ls now = .blocked "Please select a size" := by
    intro h hs hz
    unfold VariantModal.hasSizes at hs
    unfold VariantModal.addToCart
    cases hc : modal.selectedColor with
    | none => simp [selected, hc] at h
    | some color =>
      have hne : color ≠ "" := by simpa [selected, hc] using h
      simp [hne, hs, hz]
  refine ⟨⟨?_, ?_⟩, ?_, hcolor, hsize, ?_⟩
  · rintro ⟨message, hblocked⟩
    by_contra hnot
    rw [not_or, not_and_or] at hnot
    obtain ⟨hc, hz⟩ := hnot
    have hc' : selected modal.selectedColor = true := by simpa using hc
    have hz' : modal.hasSizes = false ∨ selected modal.selectedSize = true := by
      rcases hz with h | h
      · exact Or.inl (by simpa using h)
      · exact Or.inr (by simpa using h)
    have hcalled := variantModal_not_blocked modal ls now hc' hz'
    rw [hblocked] at hcalled
    simp [AddResult.called] at hcalled
  · rintro (h | ⟨hs, hz⟩)
    · exact ⟨_, hcolor h⟩
    · by_cases hc : selected modal.selectedColor = true
      · exact ⟨_, hsize hc hs hz⟩
      · exact ⟨_, hcolor (by simpa using hc)⟩
  · intro message hblocked
    rw [hblocked]
    exact ⟨rfl, rfl⟩
  · intro hc hs
    exact variantModal_not_blocked modal ls now hc (Or.inl hs)

theorem variantModal_blocked_iff_witness :
    ((openedOn iphone).addToCart emptyStorage "t").called = false ∧
    ((openedOn iphone).addToCart emptyStorage "t").storage emptyStorage = some emptyStorage ∧
    (openedOn iphone).addToCart emptyStorage "t" = .blocked "Please select a color" ∧
    ({ openedOn iphone with selectedColor := some "Gold", checkedColor := some 3 }
      : VariantModal).addToCart emptyStorage "t" = .blocked "Please select a size" ∧
    (({ openedOn airpods with selectedColor := some "Blue", checkedColor := some 0 }
      : VariantModal).addToCart emptyStorage "t").called = true :=
  ⟨((variantModal_blocked_iff (openedOn iphone) emptyStorage "t").2.1
      "Please select a color" rfl).1,
   ((variantModal_blocked_iff (openedOn iphone) emptyStorage "t").2.1
      "Please select a color" rfl).2,
   (variantModal_blocked_iff (openedOn iphone) emptyStorage "t").2.2.1 rfl,
   (variantModal_blocked_iff
      { openedOn iphone with selectedColor := some "Gold", checkedColor := some 3 }
      emptyStorage "t").2.2.2.1 (by decide) (by decide) rfl,
   (variantModal_blocked_iff
      { openedOn airpods with selectedColor := some "Blue", checkedColor := some 0 }
      emptyStorage "t").2.2.2.2 (by decide) (by decide)⟩

/-- The product `VariantModal.addToCart` hands over has the price `finalPrice`
determines, when that price is a primitive and the call is not blocked. -/
theorem variantModal_hands_price (modal : VariantModal) (ls : LocalStorage) (now : String)
    (color : String) (price : JsValue) (hc : modal.selectedColor = some color)
    (hne : color ≠ "")
    (hsize : modal.hasSizes = false ∨ selected modal.selectedSize = true)
    (hprice : modal.finalPrice (productVariantsAt modal.currentProduct.name.render) =
      .value price) :
    ∃ product after, modal.addToCart ls now = .added product after ∧
      product.price = price ∧ after = addToCart ls product now := by
  unfold VariantModal.hasSizes at hsize
  have hgate : (((productVariantsAt modal.currentProduct.name.render).bind
      Variants.sizes).isSome && !selected modal.selectedSize) = false := by
    rcases hsize with h | h <;> simp [h]
  unfold VariantModal.addToCart
  simp only [hc, hne, if_false, hgate, Bool.false_eq_true, hprice]
  exact ⟨_, _, rfl, rfl, rfl⟩

/-- C18: with a color selected, `VariantModal.addToCart` calls
`StorageManager.addToCart` on a product (`after` is what that call returns and
the storage it leaves).  When the product's catalog entry has sizes and the
selected size is one of them, the product handed over has the price
`basePrices[selectedSize]`; when the entry has no sizes, or the product has no
entry, it has the price of the product. -/
theorem variantModal_price (modal : VariantModal) (ls : LocalStorage) (now : String)
    (color : String) (hc : modal.selectedColor = some color) (hne : color ≠ "") :
    (∀ entry sizes size,
      ProductVariants.lookup modal.currentProduct.name.render = some entry →
      entry.sizes = some sizes → modal.selectedSize = some size → size ∈ sizes →
      ∃ prices price product after,
        entry.basePrices = some prices ∧ prices.lookup size = some price ∧
        modal.addToCart ls now = .added product after ∧
        after = addToCart ls product now ∧
        product.price = .number price) ∧
    (modal.hasSizes = false →
      ∃ product after,
        modal.addToCart ls now = .added product after ∧
        after = addToCart ls product now ∧
        product.price = modal.currentProduct.price) := by
  constructor
  · intro entry sizes size hentry hsizes hsel hmem
    have hpriced : entry.priced = true :=
      catalog_priced (_, entry) (mem_of_lookup _ entry ProductVariants hentry)
    obtain ⟨prices, hprices, hall⟩ := priced_sizes entry sizes hpriced hsizes
    obtain ⟨hsne, price, hlookup, hnz⟩ := hall size hmem
    have hvariants : productVariantsAt modal.currentProduct.name.render =
        some (.entry entry) := by
      simp [productVariantsAt, hentry]
    have hfinal : modal.finalPrice (productVariantsAt modal.currentProduct.name.render) =
        .value (.number price) := by
      simp [VariantModal.finalPrice, hvariants, Variants.basePrices, hsel, hprices, hsne,
        hlookup, hnz]
    obtain ⟨product, after, hadd, hp, hafter⟩ :=
      variantModal_hands_price modal ls now color (.number price) hc hne
        (Or.inr (by simp [selected, hsel, hsne])) hfinal
    exact ⟨prices, price, product, after, hprices, hlookup, hadd, hafter, hp⟩
  · intro hno
    have hbase : (productVariantsAt modal.currentProduct.name.render).bind
        Variants.basePrices = none := by
      unfold VariantModal.hasSizes at hno
      unfold productVariantsAt at hno ⊢
      cases hentry : ProductVariants.lookup modal.currentProduct.name.render with
      | none =>
        by_cases hproto : modal.currentProduct.name.render ∈ objectPrototypeMembers
        · simp [hproto, Variants.basePrices]
        · simp [hproto]
      | some entry =>
        have hpriced : entry.priced = true :=
          catalog_priced (_, entry) (mem_of_lookup _ entry ProductVariants hentry)
        have hsizes : entry.sizes = none := by
          simpa [hentry, Variants.sizes] using hno
        simp [Variants.basePrices, priced_no_sizes entry hpriced hsizes]
    have hfinal : modal.finalPrice (productVariantsAt modal.currentProduct.name.render) =
        .value modal.currentProduct.price := by
      unfold VariantModal.finalPrice
      rw [hbase]
      cases modal.selectedSize <;> rfl
    obtain ⟨product, after, hadd, hp, hafter⟩ :=
      variantModal_hands_price modal ls now color modal.currentProduct.price hc hne
        (Or.inl hno) hfinal
    exact ⟨product, after, hadd, hafter, hp⟩

set_option maxRecDepth 100000 in
theorem variantModal_price_witness :
    (∃ prices price product after,
      iphoneEntry.basePrices = some prices ∧ prices.lookup "256GB" = some price ∧
      ({ currentProduct := iphone, selectedColor := some "Deep Purple",
         selectedSize := some "256GB", checkedColor := some 2 } : VariantModal).addToCart
        emptyStorage "t" = .added product after ∧
      after = addToCart emptyStorage product "t" ∧
      product.price = .number price) ∧
    (∃ product after,
      ({ openedOn airpods with selectedColor := some "Blue", checkedColor := some 0 }
        : VariantModal).addToCart emptyStorage "t" = .added product after ∧
      after = addToCart emptyStorage product "t" ∧
      product.price = airpods.price) :=
  ⟨(variantModal_price
      { currentProduct := iphone, selectedColor := some "Deep Purple",
        selectedSize := some "256GB", checkedColor := some 2 }
      emptyStorage "t" "Deep Purple" rfl (by decide)).1
      iphoneEntry ["128GB", "256GB", "512GB"] "256GB" (by decide) rfl rfl (by decide),
   (variantModal_price
      { openedOn airpods with selectedColor := some "Blue", checkedColor := some 0 }
      emptyStorage "t" "Blue" rfl (by decide)).2 (by decide)⟩

/-! ## The round trip of the cart -/

/-- C20: for every cart and every storage, `getCart` after `saveCart(cart)`
returns a sequence equal to `cart`: as many lines, and at every index the same
line, with the same field values. -/
theorem saveCart_getCart_roundtrip (ls : LocalStorage) (cart : List CartItem) :
    ∃ reloaded,
      getCart (saveCart ls cart) = .ok reloaded ∧
      reloaded.length = cart.length ∧
      (∀ i : Nat, reloaded[i]? = cart[i]?) ∧
      reloaded = cart :=
  ⟨cart, by simp [getCart, saveCart, JSON.stringify, JSON.parse, Text.truthy],
    rfl, fun _ => rfl, rfl⟩

/-! ## Clearing the cart -/

/-- C21: for every storage, whatever is stored under the cart key (nothing, a
cart, the empty string or text that is not JSON), `getCart` after `clearCart`
returns the empty sequence without raising; `clearCart` leaves the cart key
unset, which is not the entry `saveCart([])` would store; and the session, the
favorites and the orders of every user are as they were. -/
theorem clearCart_removes_entry (ls : LocalStorage) :
    getCart (clearCart ls) = .ok [] ∧
    (clearCart ls).cart = none ∧
    (clearCart ls).cart ≠ (saveCart ls []).cart ∧
    (clearCart ls).currentUser = ls.currentUser ∧
    (clearCart ls).favorites = ls.favorites ∧
    (clearCart ls).orders = ls.orders :=
  ⟨rfl, rfl, fun h => Option.noConfusion h, rfl, rfl, rfl⟩

end ByteBazaar
